import Mathlib

/-!
# hub-ctrl: a shallow embedding of `hub-ctrl.c`

The program enumerates USB hubs, lists the status of their ports and switches
the power of one port.  Its interaction with libusb (`usb_open`,
`usb_control_msg`, `usb_close`) and with the console is modelled as a trace of
events; the USB transport is an arbitrary state machine supplied by the
environment.

Conventions of the embedding:
* a C `int` is an `Int`; the only place where an `int` can leave its range is
  the counter `i++` of `list_ports`, which wraps modulo `2^32`;
* a byte of a `char` buffer is a `Nat` read modulo 256, converted to `int`
  according to the signedness of `char` on the platform;
* the global `hubs[0 .. hub_count-1]` is a `List hub_info`, `hub_count` is its
  length; a store beyond `MAX_HUBS` ends the run as undefined behaviour.
-/

namespace HubCtrl

/-! ## Constants -/

/-- Modelled from the spec: the constant `USB_TYPE_CLASS` of libusb's `usb.h`
(not part of the repository); request type "class", `0x01 << 5`. -/
def USB_TYPE_CLASS : Nat := 0x20
/-- Modelled from the spec: the constant `USB_RECIP_DEVICE` of libusb's `usb.h`
(not part of the repository); recipient "device". -/
def USB_RECIP_DEVICE : Nat := 0x00
/-- Modelled from the spec: the constant `USB_RECIP_OTHER` of libusb's `usb.h`
(not part of the repository); recipient "other" (a port). -/
def USB_RECIP_OTHER : Nat := 0x03
/-- Modelled from the spec: the constant `USB_ENDPOINT_IN` of libusb's `usb.h`
(not part of the repository); direction IN. -/
def USB_ENDPOINT_IN : Nat := 0x80
/-- Modelled from the spec: the constant `USB_REQ_GET_STATUS` of libusb's
`usb.h` (not part of the repository). -/
def USB_REQ_GET_STATUS : Int := 0x00
/-- Modelled from the spec: the constant `USB_REQ_CLEAR_FEATURE` of libusb's
`usb.h` (not part of the repository). -/
def USB_REQ_CLEAR_FEATURE : Int := 0x01
/-- Modelled from the spec: the constant `USB_REQ_SET_FEATURE` of libusb's
`usb.h` (not part of the repository). -/
def USB_REQ_SET_FEATURE : Int := 0x03
/-- Modelled from the spec: the constant `USB_REQ_GET_DESCRIPTOR` of libusb's
`usb.h` (not part of the repository). -/
def USB_REQ_GET_DESCRIPTOR : Int := 0x06
/-- Modelled from the spec: the constant `USB_DT_HUB` of libusb's `usb.h`
(not part of the repository); the hub descriptor type. -/
def USB_DT_HUB : Nat := 0x29
/-- Modelled from the spec: the constant `USB_CLASS_HUB` of libusb's `usb.h`
(not part of the repository); the device class of hubs. -/
def USB_CLASS_HUB : Int := 9

def USB_RT_HUB : Nat := USB_TYPE_CLASS ||| USB_RECIP_DEVICE
def USB_RT_PORT : Nat := USB_TYPE_CLASS ||| USB_RECIP_OTHER
def USB_PORT_FEAT_POWER : Int := 8
def USB_DIR_IN : Nat := 0x80
def HUB_CHAR_LPSM : Nat := 0x0003
def HUB_CHAR_PORTIND : Nat := 0x0080
def CTRL_TIMEOUT : Int := 1000
def USB_STATUS_SIZE : Int := 4
def MAX_HUBS : Nat := 128

/-- The value of `sizeof (struct hub_metadata)`: seven `unsigned char` members
followed by a zero-length array. -/
def sizeof_hub_metadata : Nat := 7

/-- The value of `sizeof (buf)` for `char buf[1024]` in `list_hubs`. -/
def sizeof_buf : Int := 1024

/-- Width of `int`. -/
def INT_BITS : Nat := 32
/-- Width of `size_t` (LP64; every width of at least 32 bits gives the same
comparisons for values of type `int`). -/
def SIZE_T_BITS : Nat := 64

def INT_MAX : Int := 2147483647
def INT_MIN : Int := -2147483648

/-! ## Machine arithmetic -/

/-- An `int` result reduced to the 32-bit two's complement range. -/
def wrap_int (x : Int) : Int := (x + 2147483648) % 4294967296 - 2147483648

/-- Conversion of an `int` to `size_t` (usual arithmetic conversions in a
comparison of an `int` with a `size_t`). -/
def to_size_t (x : Int) : Nat := (x % (2 : Int) ^ SIZE_T_BITS).toNat

/-- The value of a `char` cell holding the byte `b` when promoted to `int`. -/
def char_val (char_signed : Bool) (b : Nat) : Int :=
  if char_signed && decide (128 ≤ b % 256) then ((b % 256 : Nat) : Int) - 256
  else ((b % 256 : Nat) : Int)

/-- The value of an `unsigned char` cell holding the byte `b`. -/
def uchar_val (b : Nat) : Nat := b % 256

/-- The bit pattern of an `int` (two's complement). -/
def int_bits (x : Int) : Nat := (x % (2 : Int) ^ INT_BITS).toNat

/-- The C expression `x & mask` for an `int` `x` and a non-negative constant
`mask`. -/
def c_and (x : Int) (mask : Nat) : Nat := int_bits x &&& mask

/-! ## Data model -/

/-- The fields of libusb's `struct usb_device` the program reads; `addr`
identifies the structure (the pointer value). -/
structure usb_device where
  devnum : Int
  bDeviceClass : Int
  addr : Nat
deriving DecidableEq, Inhabited

/-- The fields of libusb's `struct usb_bus` the program reads. -/
structure usb_bus where
  dirname : String
  devices : List usb_device
deriving DecidableEq

structure hub_info where
  busnum : Int
  devnum : Int
  dev : usb_device
  port_count : Int
deriving DecidableEq, Inhabited

/-- The arguments of one `usb_control_msg` call (the handle apart). -/
structure ctrl_msg where
  requesttype : Int
  request : Int
  value : Int
  index : Int
  size : Int
  timeout : Int
deriving DecidableEq

/-- What a `usb_control_msg` call gives back: its return value, the content of
the caller's buffer afterwards and the next state of the transport. -/
structure Reply (σ : Type) where
  ret : Int
  buf : Nat → Nat
  st : σ

/-- The environment of a run: the platform, libc's `atoi`, the bus list left by
`usb_find_busses`/`usb_find_devices`, and the behaviour of libusb.
`stack_buf` is the indeterminate content of the uninitialised `char buf[1024]`
of `list_hubs`. -/
structure Env (σ : Type) where
  char_signed : Bool
  atoi : String → Int
  busses : List usb_bus
  usb_open : σ → usb_device → Bool × σ
  usb_close : σ → usb_device → σ
  usb_control_msg : σ → usb_device → ctrl_msg → Reply σ
  stack_buf : σ → Nat → Nat

/-- Power switching label printed by `list_hubs`. -/
inductive PowerSwitching
  | ganged
  | individual
  | no_switching
deriving DecidableEq

/-- The messages the program prints. -/
inductive Out
  | usage (progname : String)
  | cannot_read_port (i : Int)
  | port_line (last : Bool) (i : Int) (words : List String)
  | color_reset
  | bus_access_failed
  | hub_line (hub_count : Int) (bus : Int) (dev : Int)
  | power_switching (mode : PowerSwitching)
  | cant_get_hub_descriptor
  | no_hub_found
  | device_not_found
  | failed_to_control
  | summary (hub bus dev port power : Int)
deriving DecidableEq

/-- Observable events of a run. -/
inductive Event
  | usb_open (dev : usb_device) (ok : Bool)
  | usb_close (dev : usb_device)
  | usb_control_msg (dev : usb_device) (m : ctrl_msg)
  | printf (o : Out)
deriving DecidableEq

/-- How a run ends. -/
inductive Outcome
  | exit (status : Int)
  | undefined_atoi_null
  | undefined_store (index : Nat)
  | hang
deriving DecidableEq

/-! ## list_ports -/

/-- The ten `%s` arguments of the status line, in the order of the format. -/
def status_words (char_signed : Bool) (buf : Nat → Nat) : List String :=
  [ if c_and (char_val char_signed (buf 1)) 0x01 ≠ 0 then " power" else "",
    if c_and (char_val char_signed (buf 1)) 0x02 ≠ 0 then " lowspeed" else "",
    if c_and (char_val char_signed (buf 1)) 0x04 ≠ 0 then " highspeed" else "",
    if c_and (char_val char_signed (buf 1)) 0x08 ≠ 0 then " test" else "",
    if c_and (char_val char_signed (buf 1)) 0x10 ≠ 0 then " indicator" else "",
    if c_and (char_val char_signed (buf 0)) 0x01 ≠ 0 then " connect" else "",
    if c_and (char_val char_signed (buf 0)) 0x02 ≠ 0 then " enable" else "",
    if c_and (char_val char_signed (buf 0)) 0x04 ≠ 0 then " suspend" else "",
    if c_and (char_val char_signed (buf 0)) 0x08 ≠ 0 then " oc" else "",
    if c_and (char_val char_signed (buf 0)) 0x10 ≠ 0 then " RESET" else "" ]

/-- The GET_STATUS request of `list_ports` for port `i`. -/
def status_request (i : Int) : ctrl_msg :=
  { requesttype := ((USB_ENDPOINT_IN ||| USB_TYPE_CLASS ||| USB_RECIP_OTHER : Nat) : Int)
    request := USB_REQ_GET_STATUS
    value := 0
    index := i
    size := USB_STATUS_SIZE
    timeout := CTRL_TIMEOUT }

/-- The `for` loop of `list_ports`, entered with counter `i`; `none` when the
fuel runs out before the loop is left. -/
def list_ports_loop {σ : Type} (env : Env σ) (uh : usb_device) (port_count : Int) :
    Nat → Int → σ → Option (σ × List Event)
  | 0, i, s => if i ≤ port_count then none else some (s, [])
  | fuel + 1, i, s =>
    if i ≤ port_count then
      let r := env.usb_control_msg s uh (status_request i)
      if r.ret < 0 then
        some (r.st, [Event.usb_control_msg uh (status_request i),
                     Event.printf (Out.cannot_read_port i)])
      else
        match list_ports_loop env uh port_count fuel (wrap_int (i + 1)) r.st with
        | none => none
        | some (s', t) =>
          some (s', Event.usb_control_msg uh (status_request i)
                    :: Event.printf (Out.port_line (decide (i = port_count)) i
                         (status_words env.char_signed r.buf))
                    :: t)
    else some (s, [])

/-- The function `list_ports`: the loop from `i = 1`, then the colour reset.
The loop is given `port_count` iterations of fuel, which is enough whenever
`port_count < INT_MAX`. -/
def list_ports {σ : Type} (env : Env σ) (uh : usb_device) (port_count : Int) (s : σ) :
    Option (σ × List Event) :=
  match list_ports_loop env uh port_count port_count.toNat 1 s with
  | none => none
  | some (s', t) => some (s', t ++ [Event.printf Out.color_reset])

/-! ## list_hubs -/

/-- What `list_hubs` leaves behind: the transport state, the registry
`hubs[0 .. hub_count-1]`, the events so far, and the outcome when the run ended
inside. -/
structure Walk (σ : Type) where
  st : σ
  hubs : List hub_info
  trace : List Event
  stop : Option Outcome

/-- The GET_DESCRIPTOR request of `list_hubs`. -/
def descriptor_request : ctrl_msg :=
  { requesttype := ((USB_DIR_IN ||| USB_RT_HUB : Nat) : Int)
    request := USB_REQ_GET_DESCRIPTOR
    value := ((USB_DT_HUB <<< 8 : Nat) : Int)
    index := 0
    size := sizeof_buf
    timeout := CTRL_TIMEOUT }

/-- The `switch` on `hub_data->wHubCharacteristics[0] & HUB_CHAR_LPSM`
(`wHubCharacteristics[0]` is byte 3 of the buffer, an `unsigned char`). -/
def power_switching_mode (buf : Nat → Nat) : PowerSwitching :=
  match uchar_val (buf 3) &&& HUB_CHAR_LPSM with
  | 0 => PowerSwitching.ganged
  | 1 => PowerSwitching.individual
  | _ => PowerSwitching.no_switching

/-- Lines 124-132 of `list_hubs`: read the port count from `buf[2]`, store the
entry at `hubs[hub_count]`, count it, list the ports and close the handle.
`pre` holds the events of this device so far. -/
def register_hub {σ : Type} (env : Env σ) (bus : usb_bus) (dev : usb_device)
    (buf : Nat → Nat) (s : σ) (hubs : List hub_info) (pre : List Event) : Walk σ :=
  let port_count := char_val env.char_signed (buf 2)
  if hubs.length < MAX_HUBS then
    let hubs' := hubs ++ [{ busnum := env.atoi bus.dirname, devnum := dev.devnum,
                             dev := dev, port_count := port_count }]
    match list_ports env dev port_count s with
    | none => { st := s, hubs := hubs', trace := pre, stop := some Outcome.hang }
    | some (s', t) =>
      { st := env.usb_close s' dev, hubs := hubs',
        trace := pre ++ t ++ [Event.usb_close dev], stop := none }
  else
    { st := s, hubs := hubs, trace := pre,
      stop := some (Outcome.undefined_store hubs.length) }

/-- The body of the inner loop of `list_hubs` for one device. -/
def list_hubs_device {σ : Type} (env : Env σ) (port : Int) (bus : usb_bus)
    (dev : usb_device) (s : σ) (hubs : List hub_info) : Walk σ :=
  if dev.bDeviceClass ≠ USB_CLASS_HUB then
    { st := s, hubs := hubs, trace := [], stop := none }
  else
    let o := env.usb_open s dev
    if o.1 then
      if port = 0 then
        let r := env.usb_control_msg o.2 dev descriptor_request
        if to_size_t r.ret > sizeof_hub_metadata then
          register_hub env bus dev r.buf r.st hubs
            [Event.usb_open dev true,
             Event.usb_control_msg dev descriptor_request,
             Event.printf (Out.hub_line hubs.length (env.atoi bus.dirname) dev.devnum),
             Event.printf (Out.power_switching (power_switching_mode r.buf))]
        else
          { st := env.usb_close r.st dev, hubs := hubs,
            trace := [Event.usb_open dev true,
                      Event.usb_control_msg dev descriptor_request,
                      Event.printf Out.cant_get_hub_descriptor,
                      Event.usb_close dev],
            stop := none }
      else
        register_hub env bus dev (env.stack_buf o.2) o.2 hubs [Event.usb_open dev true]
    else
      { st := o.2, hubs := hubs, trace := [Event.usb_open dev false], stop := none }

/-- The inner loop of `list_hubs` over the devices of one bus. -/
def list_hubs_devices {σ : Type} (env : Env σ) (port : Int) (bus : usb_bus) :
    List usb_device → σ → List hub_info → Walk σ
  | [], s, hubs => { st := s, hubs := hubs, trace := [], stop := none }
  | dev :: rest, s, hubs =>
    let w := list_hubs_device env port bus dev s hubs
    match w.stop with
    | some _ => w
    | none =>
      let w' := list_hubs_devices env port bus rest w.st w.hubs
      { st := w'.st, hubs := w'.hubs, trace := w.trace ++ w'.trace, stop := w'.stop }

/-- The outer loop of `list_hubs` over the busses. -/
def list_hubs_busses {σ : Type} (env : Env σ) (port : Int) :
    List usb_bus → σ → List hub_info → Walk σ
  | [], s, hubs => { st := s, hubs := hubs, trace := [], stop := none }
  | bus :: rest, s, hubs =>
    let w := list_hubs_devices env port bus bus.devices s hubs
    match w.stop with
    | some _ => w
    | none =>
      let w' := list_hubs_busses env port rest w.st w.hubs
      { st := w'.st, hubs := w'.hubs, trace := w.trace ++ w'.trace, stop := w'.stop }

/-- The function `list_hubs`, run on the registry `hubs` (empty at program
start). -/
def list_hubs {σ : Type} (env : Env σ) (port : Int) (s : σ) (hubs : List hub_info) : Walk σ :=
  match env.busses with
  | [] => { st := s, hubs := hubs, trace := [Event.printf Out.bus_access_failed],
            stop := some (Outcome.exit 1) }
  | bus :: rest =>
    let w := list_hubs_busses env port (bus :: rest) s hubs
    match w.stop with
    | some _ => w
    | none =>
      if w.hubs.length = 0 then
        { st := w.st, hubs := w.hubs, trace := w.trace ++ [Event.printf Out.no_hub_found],
          stop := some (Outcome.exit 1) }
      else w

/-! ## get_hub -/

/-- The loop of `get_hub` at counter `i`, over the entries `hubs[i ..
hub_count-1]` still to be inspected. -/
def get_hub_from (busnum devnum : Int) : Nat → List hub_info → Int
  | _, [] => -1
  | i, h :: rest =>
    if h.busnum = busnum ∧ h.devnum = devnum then (i : Int)
    else get_hub_from busnum devnum (i + 1) rest

def get_hub (hubs : List hub_info) (busnum devnum : Int) : Int :=
  get_hub_from busnum devnum 0 hubs

/-! ## main -/

/-- The local variables of `main` set by the command line. -/
structure Config where
  busnum : Int
  devnum : Int
  port : Int
  power : Int
  hub : Int
deriving DecidableEq

/-- The initial values of the locals of `main`. -/
def init_config : Config := { busnum := 0, devnum := 0, port := 0, power := 1, hub := -1 }

/-- How the argument loop of `main` ends: with the locals set, in
`exit_with_usage`, or in `atoi (NULL)`. -/
inductive Parsed
  | ok (cfg : Config)
  | usage
  | atoi_null
deriving DecidableEq

/-- The argument loop of `main` over `argv[i ..]`.  An option that reads
`argv[++i]` past the last argument hands `argv[argc] = NULL` to `atoi`. -/
def parse_args (atoi : String → Int) : List String → Config → Parsed
  | [], c => Parsed.ok c
  | a :: rest, c =>
    match a.data with
    | '-' :: 'H' :: _ =>
      match rest with
      | [] => Parsed.atoi_null
      | v :: rest' => parse_args atoi rest' { c with hub := atoi v }
    | '-' :: 'B' :: _ =>
      if c.hub = -1 then
        match rest with
        | [] => Parsed.atoi_null
        | v :: rest' => parse_args atoi rest' { c with busnum := atoi v }
      else parse_args atoi rest c
    | '-' :: 'D' :: _ =>
      if c.hub = -1 then
        match rest with
        | [] => Parsed.atoi_null
        | v :: rest' => parse_args atoi rest' { c with devnum := atoi v }
      else parse_args atoi rest c
    | '-' :: 'P' :: _ =>
      match rest with
      | [] => Parsed.atoi_null
      | v :: rest' => parse_args atoi rest' { c with port := atoi v }
    | '-' :: 'p' :: _ =>
      match rest with
      | [] => Parsed.atoi_null
      | v :: rest' => parse_args atoi rest' { c with power := atoi v }
    | _ => Parsed.usage

/-- A whole run: its events and how it ended. -/
structure Run where
  trace : List Event
  outcome : Outcome
deriving DecidableEq

/-- Lines 206-208 of `main`: the hub index after the lookup by address. -/
def resolve_hub (cfg : Config) (hubs : List hub_info) : Int :=
  if cfg.hub < 0 then get_hub hubs cfg.busnum cfg.devnum else cfg.hub

/-- The power request of `main` for port `port`. -/
def power_request (power port : Int) : ctrl_msg :=
  { requesttype := (USB_RT_PORT : Int)
    request := if power > 0 then USB_REQ_SET_FEATURE else USB_REQ_CLEAR_FEATURE
    value := USB_PORT_FEAT_POWER
    index := port
    size := 0
    timeout := CTRL_TIMEOUT }

/-- Lines 210-231 of `main`: open the hub with index `hub`, switch the power
of the port and list the ports again.  `pre` holds the events so far. -/
def power_stage {σ : Type} (env : Env σ) (cfg : Config) (s : σ) (hubs : List hub_info)
    (hub : Int) (pre : List Event) : Run :=
  if 0 ≤ hub ∧ hub < (hubs.length : Int) then
    let h := hubs.getD hub.toNat default
    let o := env.usb_open s h.dev
    if o.1 then
      let r := env.usb_control_msg o.2 h.dev (power_request cfg.power cfg.port)
      if r.ret < 0 then
        { trace := pre ++ [Event.usb_open h.dev true,
                           Event.usb_control_msg h.dev (power_request cfg.power cfg.port),
                           Event.printf Out.failed_to_control],
          outcome := Outcome.exit 1 }
      else
        match list_ports env h.dev h.port_count r.st with
        | none =>
          { trace := pre ++ [Event.usb_open h.dev true,
                             Event.usb_control_msg h.dev (power_request cfg.power cfg.port)],
            outcome := Outcome.hang }
        | some (_, t) =>
          { trace := pre ++ [Event.usb_open h.dev true,
                             Event.usb_control_msg h.dev (power_request cfg.power cfg.port)]
                       ++ t
                       ++ [Event.printf (Out.summary hub cfg.busnum cfg.devnum cfg.port cfg.power)],
            outcome := Outcome.exit 0 }
    else
      { trace := pre ++ [Event.usb_open h.dev false, Event.printf Out.device_not_found],
        outcome := Outcome.exit 1 }
  else
    { trace := pre ++ [Event.printf Out.device_not_found], outcome := Outcome.exit 1 }

/-- The function `main` on the argument vector `argv`, started with the
transport in state `s` and the registry empty. -/
def main {σ : Type} (env : Env σ) (argv : List String) (s : σ) : Run :=
  match parse_args env.atoi argv.tail init_config with
  | Parsed.usage =>
    { trace := [Event.printf (Out.usage (argv.headD ""))], outcome := Outcome.exit 1 }
  | Parsed.atoi_null =>
    { trace := [], outcome := Outcome.undefined_atoi_null }
  | Parsed.ok cfg =>
    let w := list_hubs env cfg.port s []
    match w.stop with
    | some o => { trace := w.trace, outcome := o }
    | none =>
      if cfg.port = 0 then { trace := w.trace, outcome := Outcome.exit 0 }
      else power_stage env cfg w.st w.hubs (resolve_hub cfg w.hubs) w.trace

/-! ## Example environment -/

/-- Decimal digits of `atoi`, accumulated from the left. -/
def atoi_digits : List Char → Int → Int
  | [], acc => acc
  | c :: cs, acc =>
    if c.isDigit then atoi_digits cs (acc * 10 + ((c.toNat - 48 : Nat) : Int)) else acc

/-- A decimal `atoi` for the example runs: leading white space, an optional
sign, then digits. -/
def atoi_model (s : String) : Int :=
  match s.data.dropWhile Char.isWhitespace with
  | '-' :: ds => - atoi_digits ds 0
  | '+' :: ds => atoi_digits ds 0
  | ds => atoi_digits ds 0

/-- A hub at device number 2. -/
def demo_hub : usb_device := { devnum := 2, bDeviceClass := 9, addr := 1 }

/-- One hub at bus 1, device 2; the stale stack buffer makes the port count 4;
GET_STATUS for port 3 is answered with the bytes `05 03 00 00`, for the other
ports with zeros; every transfer succeeds. -/
def demo_env : Env Unit :=
  { char_signed := true
    atoi := atoi_model
    busses := [{ dirname := "001", devices := [demo_hub] }]
    usb_open := fun s _ => (true, s)
    usb_close := fun s _ => s
    usb_control_msg := fun s _ m =>
      { ret := if m.request = USB_REQ_GET_STATUS then 4 else 0,
        buf := fun k => if m.index = 3 then [0x05, 0x03, 0x00, 0x00].getD k 0 else 0,
        st := s }
    stack_buf := fun _ k => if k = 2 then 4 else 0 }

/-! ## The walk over the ports, stated from the specification -/

/-- The transport state once GET_STATUS has been issued for the ports
`1, ..., j` in this order, starting from the state `s`. -/
def state_after_queries {σ : Type} (env : Env σ) (uh : usb_device) (s : σ) : Nat → σ
  | 0 => s
  | j + 1 =>
    (env.usb_control_msg (state_after_queries env uh s j) uh (status_request ((j : Int) + 1))).st

/-- The reply to GET_STATUS for port `j + 1` when it is issued after the
queries of the ports `1, ..., j`. -/
def reply_to_query {σ : Type} (env : Env σ) (uh : usb_device) (s : σ) (j : Nat) : Reply σ :=
  env.usb_control_msg (state_after_queries env uh s j) uh (status_request ((j : Int) + 1))

/-- The two events of a listed port `j + 1`: its GET_STATUS transfer and its
decoded status line. -/
def listed_port {σ : Type} (env : Env σ) (uh : usb_device) (port_count : Int) (s : σ)
    (j : Nat) : List Event :=
  [Event.usb_control_msg uh (status_request ((j : Int) + 1)),
   Event.printf (Out.port_line (decide (((j : Int) + 1) = port_count)) ((j : Int) + 1)
     (status_words env.char_signed (reply_to_query env uh s j).buf))]

/-- The events of a walk that lists the ports `1, ..., k` and then, when
`k < port_count`, fails on port `k + 1`. -/
def walk_events {σ : Type} (env : Env σ) (uh : usb_device) (port_count : Int) (s : σ)
    (k : Nat) : List Event :=
  (List.range k).flatMap (listed_port env uh port_count s)
    ++ (if (k : Int) < port_count then
          [Event.usb_control_msg uh (status_request ((k : Int) + 1)),
           Event.printf (Out.cannot_read_port ((k : Int) + 1))]
        else [])

/-- The transport state at the end of such a walk. -/
def walk_state {σ : Type} (env : Env σ) (uh : usb_device) (port_count : Int) (s : σ)
    (k : Nat) : σ :=
  if (k : Int) < port_count then (reply_to_query env uh s k).st
  else state_after_queries env uh s k

/-- The control transfers of a trace, in order. -/
def transfers (t : List Event) : List ctrl_msg :=
  t.filterMap (fun e => match e with
    | Event.usb_control_msg _ m => some m
    | _ => none)

/-- The messages printed in a trace, in order. -/
def printed (t : List Event) : List Out :=
  t.filterMap (fun e => match e with
    | Event.printf o => some o
    | _ => none)

/-- A transport with a counter: every transfer advances it, the third transfer
fails, the others succeed with a status of `03 05 00 00`. -/
def flaky_env : Env Nat :=
  { char_signed := false
    atoi := atoi_model
    busses := [{ dirname := "001", devices := [demo_hub] }]
    usb_open := fun s _ => (true, s)
    usb_close := fun s _ => s
    usb_control_msg := fun s _ _ =>
      { ret := if s = 2 then -1 else 4,
        buf := fun k => [0x03, 0x05, 0x00, 0x00].getD k 0,
        st := s + 1 }
    stack_buf := fun _ k => if k = 2 then 4 else 0 }

/-- The feature requests (SET_FEATURE or CLEAR_FEATURE) among the control
transfers of a trace: the transfers that switch port power. -/
def power_transfers (t : List Event) : List ctrl_msg :=
  (transfers t).filter
    (fun m => decide (m.request = USB_REQ_SET_FEATURE ∨ m.request = USB_REQ_CLEAR_FEATURE))

/-- The demo topology with no bus at all (`usb_get_busses` returns `NULL`). -/
def no_bus_env : Env Unit := { demo_env with busses := [] }

/-- The demo hub on a transport whose GET_DESCRIPTOR transfer fails with -1
and leaves the buffer as it was (byte 2 holds 4); the other transfers succeed
with an all-zero status. -/
def failed_descriptor_env : Env Unit :=
  { demo_env with
    usb_control_msg := fun s _ m =>
      { ret := if m.request = USB_REQ_GET_DESCRIPTOR then -1 else 4,
        buf := fun k => if m.request = USB_REQ_GET_DESCRIPTOR ∧ k = 2 then 4 else 0,
        st := s } }

/-- The hub-class devices with device numbers `1, ..., n` of one bus. -/
def hub_devices (bus : Nat) (n : Nat) : List usb_device :=
  (List.range n).map
    (fun (k : Nat) => { devnum := (k : Int) + 1, bDeviceClass := 9, addr := 1000 * bus + k + 1 })

/-- A topology of 129 hubs, 100 on bus 1 and 29 on bus 2, all of which open;
the stale stack buffer makes every port count 0. -/
def crowded_env : Env Unit :=
  { demo_env with
    busses := [{ dirname := "001", devices := hub_devices 1 100 },
               { dirname := "002", devices := hub_devices 2 29 }]
    stack_buf := fun _ _ => 0 }

/-- One bus whose only device is not a hub. -/
def no_hub_env : Env Unit :=
  { demo_env with
    busses := [{ dirname := "001", devices := [{ devnum := 1, bDeviceClass := 0, addr := 7 }] }] }

/-- The argument vector of the end-to-end example: hub 0, port 3, power off. -/
def demo_argv : List String := ["hub-ctrl", "-H", "0", "-P", "3", "-p", "0"]

/-- An argument vector that gives the bus and device numbers of the demo hub
and then the explicit hub index -5. -/
def negative_hub_argv : List String :=
  ["hub-ctrl", "-B", "1", "-D", "2", "-H", "-5", "-P", "3"]

/-- The status reply `05 03 00 00`. -/
def spec_status_reply : Nat → Nat := fun k => [0x05, 0x03, 0x00, 0x00].getD k 0

/-- Whether the argument selects the case `'p'` of the `switch` of `main`. -/
def is_power_option (a : String) : Bool :=
  match a.data with
  | '-' :: 'p' :: _ => true
  | _ => false

/-- Whether the argument selects the case `'H'` of the `switch` of `main`. -/
def is_hub_option (a : String) : Bool :=
  match a.data with
  | '-' :: 'H' :: _ => true
  | _ => false

/-- The argument vector of the end-to-end example with the power value -1. -/
def negative_power_argv : List String := ["hub-ctrl", "-H", "0", "-P", "3", "-p", "-1"]

/-- The demo hub on a transport where `usb_open` succeeds while the state is 0
(in `list_hubs`) and fails afterwards; every open and transfer advances the
state. -/
def second_open_fails_env : Env Nat :=
  { char_signed := true
    atoi := atoi_model
    busses := [{ dirname := "001", devices := [demo_hub] }]
    usb_open := fun s _ => (decide (s = 0), s + 1)
    usb_close := fun s _ => s
    usb_control_msg := fun s _ _ => { ret := 4, buf := fun _ => 0, st := s + 1 }
    stack_buf := fun _ k => if k = 2 then 1 else 0 }

/-! # Theorems -/

/-! ## Port status decoding -/

set_option maxRecDepth 100000 in
lemma c_and_char_fin : ∀ (sg : Bool) (b : Fin 256) (k : Fin 5),
    decide (c_and (char_val sg b.val) (2 ^ k.val) ≠ 0) = Nat.testBit b.val k.val := by
  decide

lemma char_val_mod (sg : Bool) (b : Nat) : char_val sg (b % 256) = char_val sg b := by
  simp [char_val]

lemma c_and_char_bit (sg : Bool) (b k : Nat) (hk : k < 5) :
    (c_and (char_val sg b) (2 ^ k) ≠ 0) ↔ Nat.testBit (b % 256) k = true := by
  have h := c_and_char_fin sg ⟨b % 256, Nat.mod_lt _ (by norm_num)⟩ ⟨k, hk⟩
  simp only [char_val_mod] at h
  rw [← h]
  simp

lemma status_words_eq (sg : Bool) (buf : Nat → Nat) :
    status_words sg buf =
      [ if Nat.testBit (buf 1 % 256) 0 then " power" else "",
        if Nat.testBit (buf 1 % 256) 1 then " lowspeed" else "",
        if Nat.testBit (buf 1 % 256) 2 then " highspeed" else "",
        if Nat.testBit (buf 1 % 256) 3 then " test" else "",
        if Nat.testBit (buf 1 % 256) 4 then " indicator" else "",
        if Nat.testBit (buf 0 % 256) 0 then " connect" else "",
        if Nat.testBit (buf 0 % 256) 1 then " enable" else "",
        if Nat.testBit (buf 0 % 256) 2 then " suspend" else "",
        if Nat.testBit (buf 0 % 256) 3 then " oc" else "",
        if Nat.testBit (buf 0 % 256) 4 then " RESET" else "" ] := by
  have e0 : ∀ b, c_and (char_val sg b) 0x01 ≠ 0 ↔ Nat.testBit (b % 256) 0 = true :=
    fun b => c_and_char_bit sg b 0 (by norm_num)
  have e1 : ∀ b, c_and (char_val sg b) 0x02 ≠ 0 ↔ Nat.testBit (b % 256) 1 = true :=
    fun b => c_and_char_bit sg b 1 (by norm_num)
  have e2 : ∀ b, c_and (char_val sg b) 0x04 ≠ 0 ↔ Nat.testBit (b % 256) 2 = true :=
    fun b => c_and_char_bit sg b 2 (by norm_num)
  have e3 : ∀ b, c_and (char_val sg b) 0x08 ≠ 0 ↔ Nat.testBit (b % 256) 3 = true :=
    fun b => c_and_char_bit sg b 3 (by norm_num)
  have e4 : ∀ b, c_and (char_val sg b) 0x10 ≠ 0 ↔ Nat.testBit (b % 256) 4 = true :=
    fun b => c_and_char_bit sg b 4 (by norm_num)
  unfold status_words
  simp only [e0, e1, e2, e3, e4]

/-- C3: for every platform signedness of `char` and every reply buffer, the ten
words of the status line are exactly the flag names selected by bits 0-4 of
byte 1 (power, lowspeed, highspeed, test, indicator) and bits 0-4 of byte 0
(connect, enable, suspend, oc, RESET), an unset bit giving the empty word; the
decode is a total function, and two buffers that agree on bits 0-4 of bytes 0
and 1 give the same words, whatever their bits 5-7 and their bytes 2 and 3. -/
theorem C3_status_words_decode (sg : Bool) (buf : Nat → Nat) :
    status_words sg buf =
      [ if Nat.testBit (buf 1 % 256) 0 then " power" else "",
        if Nat.testBit (buf 1 % 256) 1 then " lowspeed" else "",
        if Nat.testBit (buf 1 % 256) 2 then " highspeed" else "",
        if Nat.testBit (buf 1 % 256) 3 then " test" else "",
        if Nat.testBit (buf 1 % 256) 4 then " indicator" else "",
        if Nat.testBit (buf 0 % 256) 0 then " connect" else "",
        if Nat.testBit (buf 0 % 256) 1 then " enable" else "",
        if Nat.testBit (buf 0 % 256) 2 then " suspend" else "",
        if Nat.testBit (buf 0 % 256) 3 then " oc" else "",
        if Nat.testBit (buf 0 % 256) 4 then " RESET" else "" ]
    ∧ (" connect" ∈ status_words sg buf ↔ Nat.testBit (buf 0 % 256) 0 = true)
    ∧ (" enable" ∈ status_words sg buf ↔ Nat.testBit (buf 0 % 256) 1 = true)
    ∧ (" suspend" ∈ status_words sg buf ↔ Nat.testBit (buf 0 % 256) 2 = true)
    ∧ (" oc" ∈ status_words sg buf ↔ Nat.testBit (buf 0 % 256) 3 = true)
    ∧ (" RESET" ∈ status_words sg buf ↔ Nat.testBit (buf 0 % 256) 4 = true)
    ∧ (" power" ∈ status_words sg buf ↔ Nat.testBit (buf 1 % 256) 0 = true)
    ∧ (" lowspeed" ∈ status_words sg buf ↔ Nat.testBit (buf 1 % 256) 1 = true)
    ∧ (" highspeed" ∈ status_words sg buf ↔ Nat.testBit (buf 1 % 256) 2 = true)
    ∧ (" test" ∈ status_words sg buf ↔ Nat.testBit (buf 1 % 256) 3 = true)
    ∧ (" indicator" ∈ status_words sg buf ↔ Nat.testBit (buf 1 % 256) 4 = true)
    ∧ (∀ buf' : Nat → Nat,
        (∀ k, k < 5 → Nat.testBit (buf' 0 % 256) k = Nat.testBit (buf 0 % 256) k) →
        (∀ k, k < 5 → Nat.testBit (buf' 1 % 256) k = Nat.testBit (buf 1 % 256) k) →
        status_words sg buf' = status_words sg buf) := by
  refine ⟨status_words_eq sg buf, ?_, ?_, ?_, ?_, ?_, ?_, ?_, ?_, ?_, ?_, ?_⟩
  rotate_right
  · intro buf' h0 h1
    rw [status_words_eq, status_words_eq]
    simp only [h0 0 (by norm_num), h0 1 (by norm_num), h0 2 (by norm_num), h0 3 (by norm_num),
      h0 4 (by norm_num), h1 0 (by norm_num), h1 1 (by norm_num), h1 2 (by norm_num),
      h1 3 (by norm_num), h1 4 (by norm_num)]
  all_goals (rw [status_words_eq]; simp [eq_ite_iff])

/-! ## get_hub -/

/-- The loop of `get_hub` entered at counter `i0` either finds no matching
entry and returns -1, or returns `i0 + k` for the first matching position `k`
of the remaining entries. -/
lemma get_hub_from_spec (busnum devnum : Int) (l : List hub_info) :
    ∀ i0 : Nat,
      (get_hub_from busnum devnum i0 l = -1 ∧
          ∀ h ∈ l, ¬ (h.busnum = busnum ∧ h.devnum = devnum)) ∨
      (∃ k h, l[k]? = some h ∧ get_hub_from busnum devnum i0 l = ((i0 + k : Nat) : Int) ∧
          (h.busnum = busnum ∧ h.devnum = devnum) ∧
          ∀ j h', j < k → l[j]? = some h' → ¬ (h'.busnum = busnum ∧ h'.devnum = devnum)) := by
  induction l with
  | nil => intro i0; left; simp [get_hub_from]
  | cons a rest ih =>
    intro i0
    by_cases hm : a.busnum = busnum ∧ a.devnum = devnum
    · right
      refine ⟨0, a, by simp, by simp [get_hub_from, hm], hm, ?_⟩
      intro j h' hj
      omega
    · rcases ih (i0 + 1) with ⟨h1, h2⟩ | ⟨k, h, hk, hres, hmatch, hfirst⟩
      · left
        refine ⟨by simp [get_hub_from, hm, h1], ?_⟩
        intro h hh
        rcases List.mem_cons.mp hh with rfl | hh
        · exact hm
        · exact h2 h hh
      · right
        refine ⟨k + 1, h, by simpa using hk, ?_, hmatch, ?_⟩
        · simp only [get_hub_from, hm, if_false, hres]
          push_cast
          ring
        · intro j h' hj hj'
          cases j with
          | zero =>
            simp at hj'
            subst hj'
            exact hm
          | succ j =>
            simp at hj'
            exact hfirst j h' (by omega) hj'

/-- C4: `get_hub` returns the index `i` exactly when `hubs[i]` is the first
entry (smallest index below `hub_count`) whose bus and device numbers are the
requested pair; it returns -1 exactly when no registered entry has the pair; its
result is always -1 or an index below `hub_count`.  `get_hub` is a function of
the registry and the pair alone and returns only the index: the registry is
left as it was. -/
theorem C4_get_hub_first_match (hubs : List hub_info) (busnum devnum : Int) :
    (∀ i : Nat, get_hub hubs busnum devnum = (i : Int) ↔
        ∃ h, hubs[i]? = some h ∧ (h.busnum = busnum ∧ h.devnum = devnum) ∧
          ∀ j h', j < i → hubs[j]? = some h' →
            ¬ (h'.busnum = busnum ∧ h'.devnum = devnum))
    ∧ (get_hub hubs busnum devnum = -1 ↔
        ∀ h ∈ hubs, ¬ (h.busnum = busnum ∧ h.devnum = devnum))
    ∧ (-1 ≤ get_hub hubs busnum devnum ∧ get_hub hubs busnum devnum < (hubs.length : Int)) := by
  unfold get_hub
  rcases get_hub_from_spec busnum devnum hubs 0 with ⟨h1, h2⟩ | ⟨k, h, hk, hres, hmatch, hfirst⟩
  · refine ⟨?_, ?_, ?_⟩
    · intro i
      rw [h1]
      constructor
      · intro hi
        omega
      · rintro ⟨h, hi, hm, -⟩
        exact absurd hm (h2 h (List.getElem?_mem hi))
    · simp only [h1, true_iff]
      exact h2
    · rw [h1]
      constructor
      · omega
      · have : (0 : Int) ≤ (hubs.length : Int) := Int.ofNat_nonneg _
        omega
  · have hklt : k < hubs.length := by
      rcases List.getElem?_eq_some_iff.mp hk with ⟨hlt, -⟩
      exact hlt
    simp only [Nat.zero_add] at hres
    refine ⟨?_, ?_, ?_⟩
    · intro i
      rw [hres]
      constructor
      · intro hi
        have : k = i := by exact_mod_cast hi
        subst this
        exact ⟨h, hk, hmatch, hfirst⟩
      · rintro ⟨h', hi, hm', hf'⟩
        rcases Nat.lt_trichotomy k i with hlt | heq | hgt
        · exact absurd hmatch (hf' k h hlt hk)
        · rw [heq]
        · exact absurd hm' (hfirst i h' hgt hi)
    · rw [hres]
      constructor
      · intro hk'
        have : (0 : Int) ≤ (k : Int) := Int.ofNat_nonneg _
        omega
      · intro hall
        exact absurd hmatch (hall h (List.getElem?_mem hk))
    · rw [hres]
      constructor
      · have : (0 : Int) ≤ (k : Int) := Int.ofNat_nonneg _
        omega
      · exact_mod_cast hklt

/-! ## list_ports -/

lemma wrap_int_of_range (x : Int) (h1 : -2147483648 ≤ x) (h2 : x < 2147483648) :
    wrap_int x = x := by
  unfold wrap_int
  omega

/-- The loop of `list_ports` entered at counter `m + 1` after the ports
`1, ..., m` have been listed. -/
lemma list_ports_loop_from {σ : Type} (env : Env σ) (uh : usb_device) (n : Int) (s : σ)
    (hn : n < INT_MAX) :
    ∀ d m : Nat, m + d = n.toNat →
      ∃ k : Nat, m ≤ k ∧ k ≤ n.toNat ∧
        (∀ j, m ≤ j → j < k → 0 ≤ (reply_to_query env uh s j).ret) ∧
        ((k : Int) < n → (reply_to_query env uh s k).ret < 0) ∧
        ∀ fuel, d ≤ fuel →
          list_ports_loop env uh n fuel ((m : Int) + 1) (state_after_queries env uh s m) =
            some (walk_state env uh n s k,
              (List.range' m (k - m)).flatMap (listed_port env uh n s)
                ++ (if (k : Int) < n then
                      [Event.usb_control_msg uh (status_request ((k : Int) + 1)),
                       Event.printf (Out.cannot_read_port ((k : Int) + 1))]
                    else [])) := by
  unfold INT_MAX at hn
  intro d
  induction d with
  | zero =>
    intro m hm
    have hmn : ¬ ((m : Int) + 1 ≤ n) := by omega
    have hkn : ¬ ((m : Int) < n) := by omega
    refine ⟨m, le_refl _, by omega, ?_, ?_, ?_⟩
    · intro j h1 h2
      omega
    · intro h
      exact absurd h hkn
    · intro fuel _
      cases fuel with
      | zero => simp [list_ports_loop, hmn, hkn, walk_state]
      | succ f => simp [list_ports_loop, hmn, hkn, walk_state]
  | succ d ih =>
    intro m hm
    have hmn : (m : Int) + 1 ≤ n := by omega
    by_cases hr : (reply_to_query env uh s m).ret < 0
    · have hkn : (m : Int) < n := by omega
      refine ⟨m, le_refl _, by omega, ?_, ?_, ?_⟩
      · intro j h1 h2
        omega
      · intro _
        exact hr
      · intro fuel hf
        obtain ⟨f, rfl⟩ : ∃ f, fuel = f + 1 := ⟨fuel - 1, by omega⟩
        have hr' : (env.usb_control_msg (state_after_queries env uh s m) uh
            (status_request ((m : Int) + 1))).ret < 0 := hr
        simp [list_ports_loop, hmn, hkn, walk_state, hr', reply_to_query]
    · obtain ⟨k, hk1, hk2, hok, hfail, hloop⟩ := ih (m + 1) (by omega)
      refine ⟨k, by omega, hk2, ?_, hfail, ?_⟩
      · intro j h1 h2
        rcases Nat.eq_or_lt_of_le h1 with rfl | h1'
        · omega
        · exact hok j (by omega) h2
      · intro fuel hf
        obtain ⟨f, rfl⟩ : ∃ f, fuel = f + 1 := ⟨fuel - 1, by omega⟩
        have hr' : ¬ (env.usb_control_msg (state_after_queries env uh s m) uh
            (status_request ((m : Int) + 1))).ret < 0 := hr
        have hw : wrap_int ((m : Int) + 1 + 1) = ((m + 1 : Nat) : Int) + 1 := by
          rw [wrap_int_of_range _ (by omega) (by omega)]
          push_cast
          ring
        have hl := hloop f (by omega)
        simp only [state_after_queries] at hl
        have hrange : List.range' m (k - m) = m :: List.range' (m + 1) (k - (m + 1)) := by
          have : k - m = (k - (m + 1)) + 1 := by omega
          rw [this, List.range'_succ]
        simp only [list_ports_loop, hmn, if_true, hr', if_false, hw, hl, hrange,
          List.flatMap_cons, listed_port, reply_to_query, List.cons_append, List.nil_append]

lemma transfers_append (a b : List Event) : transfers (a ++ b) = transfers a ++ transfers b := by
  simp [transfers]

lemma printed_append (a b : List Event) : printed (a ++ b) = printed a ++ printed b := by
  simp [printed]

lemma transfers_listed {σ : Type} (env : Env σ) (uh : usb_device) (n : Int) (s : σ) (k : Nat) :
    transfers ((List.range k).flatMap (listed_port env uh n s)) =
      (List.range k).map (fun j : Nat => status_request ((j : Int) + 1)) := by
  induction k with
  | zero => simp [transfers]
  | succ k ih =>
    rw [List.range_succ, List.flatMap_append, transfers_append, ih, List.map_append]
    simp [transfers, listed_port]

lemma printed_listed {σ : Type} (env : Env σ) (uh : usb_device) (n : Int) (s : σ) (k : Nat) :
    printed ((List.range k).flatMap (listed_port env uh n s)) =
      (List.range k).map (fun j : Nat =>
        Out.port_line (decide (((j : Int) + 1) = n)) ((j : Int) + 1)
          (status_words env.char_signed (reply_to_query env uh s j).buf)) := by
  induction k with
  | zero => simp [printed]
  | succ k ih =>
    rw [List.range_succ, List.flatMap_append, printed_append, ih, List.map_append]
    simp [printed, listed_port]

/-- The port counts `list_hubs` reads from `buf[2]` lie between -128 and 255,
far below `INT_MAX`. -/
lemma char_val_range (sg : Bool) (b : Nat) :
    -128 ≤ char_val sg b ∧ char_val sg b ≤ 255 ∧ char_val sg b < INT_MAX := by
  unfold char_val INT_MAX
  split_ifs with h
  · simp only [Bool.and_eq_true, decide_eq_true_eq] at h
    omega
  · omega

lemma wrap_int_le (x : Int) : wrap_int x ≤ 2147483647 := by
  unfold wrap_int
  omega

lemma list_ports_loop_demo_none (fuel : Nat) :
    ∀ i : Int, i ≤ 2147483647 →
      list_ports_loop demo_env demo_hub 2147483647 fuel i () = none := by
  induction fuel with
  | zero =>
    intro i hi
    simp [list_ports_loop, hi]
  | succ f ih =>
    intro i hi
    have h := ih (wrap_int (i + 1)) (wrap_int_le _)
    have hret : (demo_env.usb_control_msg () demo_hub (status_request i)).ret = 4 := by
      simp [demo_env, status_request]
    have hst : (demo_env.usb_control_msg () demo_hub (status_request i)).st = () := rfl
    simp only [list_ports_loop, hi, if_true, hret, hst, h]
    simp

lemma list_ports_eq_none {σ : Type} (env : Env σ) (uh : usb_device) (n : Int) (s : σ)
    (h : list_ports_loop env uh n n.toNat 1 s = none) : list_ports env uh n s = none := by
  unfold list_ports
  rw [h]

/-- C7 (as stated, refuted): with the port count `INT_MAX` and a transport on
which every transfer succeeds, the condition `i <= port_count` holds for every
value of the counter, so the loop of `list_ports` is left for no amount of
fuel and `list_ports` does not return. -/
theorem C7_list_ports_int_max_never_returns :
    INT_MAX = 2147483647
    ∧ (¬ ∃ fuel : Nat, list_ports_loop demo_env demo_hub 2147483647 fuel 1 () ≠ none)
    ∧ list_ports demo_env demo_hub 2147483647 () = none := by
  refine ⟨rfl, ?_, ?_⟩
  · rintro ⟨fuel, h⟩
    exact h (list_ports_loop_demo_none fuel 1 (by norm_num))
  · exact list_ports_eq_none demo_env demo_hub 2147483647 ()
      (list_ports_loop_demo_none _ 1 (by norm_num))

/-- C7 (amended): for every port count `n < INT_MAX`, every transport and every
start state there is a number `k ≤ max n 0` of listed ports such that the
queries of the ports `1, ..., k` all succeed, the query of port `k + 1` fails
when `k < n`, and `list_ports` returns (its loop with any fuel of at least `n`
iterations, and the function itself) with exactly these events: for each port
`1, ..., k` in ascending order its GET_STATUS transfer `(0xA3, 0, 0, port, 4,
1000)` followed by its decoded status line, then, when `k < n`, the transfer of
port `k + 1` followed by the error report for that port, and nothing after that
but the colour reset; so the transfers are those of the ports `1, ..., k`
(and `k + 1` on a failure), each exactly once, and none when `n ≤ 0`. -/
theorem C7_list_ports_walk {σ : Type} (env : Env σ) (uh : usb_device) (n : Int) (s : σ)
    (hn : n < INT_MAX) :
    ∃ k : Nat, (k : Int) ≤ max n 0 ∧
      (∀ j, j < k → 0 ≤ (reply_to_query env uh s j).ret) ∧
      ((k : Int) < n → (reply_to_query env uh s k).ret < 0) ∧
      (∀ fuel, n.toNat ≤ fuel →
        list_ports_loop env uh n fuel 1 s =
          some (walk_state env uh n s k, walk_events env uh n s k)) ∧
      list_ports env uh n s =
        some (walk_state env uh n s k,
          walk_events env uh n s k ++ [Event.printf Out.color_reset]) ∧
      transfers (walk_events env uh n s k) =
        (List.range (if (k : Int) < n then k + 1 else k)).map
          (fun j : Nat => ctrl_msg.mk 0xA3 0 0 ((j : Int) + 1) 4 1000) ∧
      printed (walk_events env uh n s k) =
        (List.range k).map (fun j : Nat =>
          Out.port_line (decide (((j : Int) + 1) = n)) ((j : Int) + 1)
            (status_words env.char_signed (reply_to_query env uh s j).buf))
        ++ (if (k : Int) < n then [Out.cannot_read_port ((k : Int) + 1)] else []) := by
  obtain ⟨k, -, hk2, hok, hfail, hloop⟩ := list_ports_loop_from env uh n s hn n.toNat 0 (by simp)
  simp only [Nat.sub_zero, ← List.range_eq_range', Nat.cast_zero, zero_add,
    state_after_queries] at hloop
  have hloop' : ∀ fuel, n.toNat ≤ fuel →
      list_ports_loop env uh n fuel 1 s =
        some (walk_state env uh n s k, walk_events env uh n s k) := by
    intro fuel hf
    rw [hloop fuel hf]
    rfl
  refine ⟨k, by omega, fun j hj => hok j (Nat.zero_le _) hj, hfail, hloop', ?_, ?_, ?_⟩
  · simp [list_ports, hloop' n.toNat (le_refl _)]
  · unfold walk_events
    rw [transfers_append, transfers_listed]
    have hreq : ∀ j : Nat, status_request ((j : Int) + 1) =
        ({ requesttype := 0xA3, request := 0, value := 0, index := (j : Int) + 1,
           size := 4, timeout := 1000 } : ctrl_msg) := by
      intro j
      simp [status_request, USB_ENDPOINT_IN, USB_TYPE_CLASS, USB_RECIP_OTHER,
        USB_REQ_GET_STATUS, USB_STATUS_SIZE, CTRL_TIMEOUT]
    by_cases hkn : (k : Int) < n
    · simp only [hkn, if_true, List.range_succ, List.map_append, hreq]
      simp [transfers, hreq]
    · simp [hkn, transfers, hreq]
  · unfold walk_events
    rw [printed_append, printed_listed]
    by_cases hkn : (k : Int) < n
    · simp [hkn, printed]
    · simp [hkn, printed]

/-- C7 (amended), witness: four ports on the transport whose third transfer
fails. -/
theorem C7_list_ports_walk_witness :
    (4 : Int) < INT_MAX ∧
    ∃ k : Nat, (k : Int) ≤ max (4 : Int) 0 ∧
      (∀ j, j < k → 0 ≤ (reply_to_query flaky_env demo_hub 0 j).ret) ∧
      ((k : Int) < 4 → (reply_to_query flaky_env demo_hub 0 k).ret < 0) ∧
      (∀ fuel, (4 : Int).toNat ≤ fuel →
        list_ports_loop flaky_env demo_hub 4 fuel 1 0 =
          some (walk_state flaky_env demo_hub 4 0 k, walk_events flaky_env demo_hub 4 0 k)) ∧
      list_ports flaky_env demo_hub 4 0 =
        some (walk_state flaky_env demo_hub 4 0 k,
          walk_events flaky_env demo_hub 4 0 k ++ [Event.printf Out.color_reset]) ∧
      transfers (walk_events flaky_env demo_hub 4 0 k) =
        (List.range (if (k : Int) < 4 then k + 1 else k)).map
          (fun j : Nat => ctrl_msg.mk 0xA3 0 0 ((j : Int) + 1) 4 1000) ∧
      printed (walk_events flaky_env demo_hub 4 0 k) =
        (List.range k).map (fun j : Nat =>
          Out.port_line (decide (((j : Int) + 1) = 4)) ((j : Int) + 1)
            (status_words flaky_env.char_signed (reply_to_query flaky_env demo_hub 0 j).buf))
        ++ (if (k : Int) < 4 then [Out.cannot_read_port ((k : Int) + 1)] else []) :=
  ⟨by decide, C7_list_ports_walk flaky_env demo_hub 4 0 (by decide)⟩

/-- The walk over four ports on the transport whose third transfer fails. -/
lemma list_ports_flaky_trace : list_ports flaky_env demo_hub 4 0 = some (3,
    [Event.usb_control_msg demo_hub ⟨0xA3, 0, 0, 1, 4, 1000⟩,
     Event.printf (Out.port_line false 1 [" power", "", " highspeed", "", "", " connect", " enable", "", "", ""]),
     Event.usb_control_msg demo_hub ⟨0xA3, 0, 0, 2, 4, 1000⟩,
     Event.printf (Out.port_line false 2 [" power", "", " highspeed", "", "", " connect", " enable", "", "", ""]),
     Event.usb_control_msg demo_hub ⟨0xA3, 0, 0, 3, 4, 1000⟩,
     Event.printf (Out.cannot_read_port 3),
     Event.printf Out.color_reset]) := by decide

/-! ## Control transfers of list_hubs -/

lemma power_transfers_append (a b : List Event) :
    power_transfers (a ++ b) = power_transfers a ++ power_transfers b := by
  simp [power_transfers, transfers_append]

lemma power_transfers_list_ports_loop {σ : Type} (env : Env σ) (uh : usb_device) (n : Int) :
    ∀ (fuel : Nat) (i : Int) (s s' : σ) (t : List Event),
      list_ports_loop env uh n fuel i s = some (s', t) → power_transfers t = [] := by
  intro fuel
  induction fuel with
  | zero =>
    intro i s s' t h
    unfold list_ports_loop at h
    split_ifs at h
    simp only [Option.some.injEq, Prod.mk.injEq] at h
    rw [← h.2]
    rfl
  | succ f ih =>
    intro i s s' t h
    unfold list_ports_loop at h
    dsimp only at h
    split_ifs at h with h1 h2
    · simp only [Option.some.injEq, Prod.mk.injEq] at h
      rw [← h.2]
      simp [power_transfers, transfers, status_request, USB_REQ_GET_STATUS,
        USB_REQ_SET_FEATURE, USB_REQ_CLEAR_FEATURE]
    · split at h
      · exact absurd h (by simp)
      · rename_i s1 t1 heq
        simp only [Option.some.injEq, Prod.mk.injEq] at h
        rw [← h.2]
        have := ih _ _ _ _ heq
        simpa [power_transfers, transfers, status_request, USB_REQ_GET_STATUS,
          USB_REQ_SET_FEATURE, USB_REQ_CLEAR_FEATURE] using this
    · simp only [Option.some.injEq, Prod.mk.injEq] at h
      rw [← h.2]
      rfl

lemma power_transfers_list_ports {σ : Type} (env : Env σ) (uh : usb_device) (n : Int)
    (s s' : σ) (t : List Event) (h : list_ports env uh n s = some (s', t)) :
    power_transfers t = [] := by
  unfold list_ports at h
  split at h
  · exact absurd h (by simp)
  · rename_i s1 t1 heq
    simp only [Option.some.injEq, Prod.mk.injEq] at h
    rw [← h.2, power_transfers_append, power_transfers_list_ports_loop env uh n _ _ _ _ _ heq]
    rfl

lemma power_transfers_register_hub {σ : Type} (env : Env σ) (bus : usb_bus) (dev : usb_device)
    (buf : Nat → Nat) (s : σ) (hubs : List hub_info) (pre : List Event)
    (hpre : power_transfers pre = []) :
    power_transfers (register_hub env bus dev buf s hubs pre).trace = [] := by
  unfold register_hub
  dsimp only
  split_ifs
  · split
    · exact hpre
    · rename_i s1 t1 heq
      simp only [power_transfers_append, hpre, power_transfers_list_ports env _ _ _ _ _ heq]
      rfl
  · exact hpre

lemma power_transfers_list_hubs_device {σ : Type} (env : Env σ) (port : Int) (bus : usb_bus)
    (dev : usb_device) (s : σ) (hubs : List hub_info) :
    power_transfers (list_hubs_device env port bus dev s hubs).trace = [] := by
  unfold list_hubs_device
  dsimp only
  split_ifs
  · rfl
  · apply power_transfers_register_hub
    simp [power_transfers, transfers, descriptor_request, USB_REQ_GET_DESCRIPTOR,
      USB_REQ_SET_FEATURE, USB_REQ_CLEAR_FEATURE]
  · simp [power_transfers, transfers, descriptor_request, USB_REQ_GET_DESCRIPTOR,
      USB_REQ_SET_FEATURE, USB_REQ_CLEAR_FEATURE]
  · apply power_transfers_register_hub
    rfl
  · rfl

lemma power_transfers_list_hubs_devices {σ : Type} (env : Env σ) (port : Int) (bus : usb_bus)
    (devs : List usb_device) :
    ∀ (s : σ) (hubs : List hub_info),
      power_transfers (list_hubs_devices env port bus devs s hubs).trace = [] := by
  induction devs with
  | nil => intro s hubs; rfl
  | cons d rest ih =>
    intro s hubs
    unfold list_hubs_devices
    simp only
    split
    · exact power_transfers_list_hubs_device env port bus d s hubs
    · simp only [power_transfers_append, power_transfers_list_hubs_device, ih, List.append_nil]

lemma power_transfers_list_hubs_busses {σ : Type} (env : Env σ) (port : Int)
    (bs : List usb_bus) :
    ∀ (s : σ) (hubs : List hub_info),
      power_transfers (list_hubs_busses env port bs s hubs).trace = [] := by
  induction bs with
  | nil => intro s hubs; rfl
  | cons b rest ih =>
    intro s hubs
    unfold list_hubs_busses
    simp only
    split
    · exact power_transfers_list_hubs_devices env port b b.devices s hubs
    · simp only [power_transfers_append, power_transfers_list_hubs_devices, ih, List.append_nil]

lemma power_transfers_list_hubs {σ : Type} (env : Env σ) (port : Int) (s : σ)
    (hubs : List hub_info) :
    power_transfers (list_hubs env port s hubs).trace = [] := by
  unfold list_hubs
  split
  · rfl
  · simp only
    split
    · exact power_transfers_list_hubs_busses env port _ s hubs
    · split_ifs
      · simp only [power_transfers_append, power_transfers_list_hubs_busses]
        rfl
      · exact power_transfers_list_hubs_busses env port _ s hubs

/-! ## The power stage of main -/

lemma power_request_eq (power port : Int) :
    power_request power port =
      ctrl_msg.mk 0x23 (if power > 0 then USB_REQ_SET_FEATURE else USB_REQ_CLEAR_FEATURE)
        8 port 0 1000 := by
  simp [power_request, USB_RT_PORT, USB_TYPE_CLASS, USB_RECIP_OTHER, USB_PORT_FEAT_POWER,
    CTRL_TIMEOUT]

lemma power_transfers_power_request (dev : usb_device) (power port : Int) :
    power_transfers [Event.usb_open dev true,
        Event.usb_control_msg dev (power_request power port)] =
      [power_request power port] := by
  by_cases h : power > 0 <;>
    simp [power_transfers, transfers, power_request, h, USB_REQ_SET_FEATURE,
      USB_REQ_CLEAR_FEATURE]

/-- The power transfers of the power stage entered with a hub index in range
whose device opens: exactly the one request of `main`. -/
lemma power_transfers_power_stage {σ : Type} (env : Env σ) (cfg : Config) (s : σ)
    (hubs : List hub_info) (hub : Int) (pre : List Event)
    (hpre : power_transfers pre = [])
    (hr : 0 ≤ hub ∧ hub < (hubs.length : Int))
    (ho : (env.usb_open s (hubs.getD hub.toNat default).dev).1 = true) :
    power_transfers (power_stage env cfg s hubs hub pre).trace =
      [power_request cfg.power cfg.port] := by
  unfold power_stage
  simp only [hr, and_self, if_true, ho]
  split_ifs
  · rw [power_transfers_append, hpre, List.nil_append]
    have := power_transfers_power_request (hubs.getD hub.toNat default).dev cfg.power cfg.port
    simp only [power_transfers, transfers] at this ⊢
    simpa using this
  · split
    · rw [power_transfers_append, hpre, List.nil_append]
      exact power_transfers_power_request _ _ _
    · rename_i s1 t1 heq
      simp only [power_transfers_append, hpre, List.nil_append,
        power_transfers_power_request, power_transfers_list_ports env _ _ _ _ _ heq,
        List.append_nil]
      rfl

/-- Outside the power stage proper no power transfer is issued. -/
lemma power_transfers_power_stage_sub {σ : Type} (env : Env σ) (cfg : Config) (s : σ)
    (hubs : List hub_info) (hub : Int) (pre : List Event)
    (hpre : power_transfers pre = []) :
    power_transfers (power_stage env cfg s hubs hub pre).trace = [] ∨
    power_transfers (power_stage env cfg s hubs hub pre).trace =
      [power_request cfg.power cfg.port] := by
  by_cases hr : 0 ≤ hub ∧ hub < (hubs.length : Int)
  · by_cases ho : (env.usb_open s (hubs.getD hub.toNat default).dev).1 = true
    · right
      exact power_transfers_power_stage env cfg s hubs hub pre hpre hr ho
    · left
      unfold power_stage
      simp only [hr, and_self, if_true, ho, Bool.false_eq_true, if_false]
      rw [power_transfers_append, hpre]
      rfl
  · left
    unfold power_stage
    simp only [hr, if_false]
    rw [power_transfers_append, hpre]
    rfl

lemma power_transfers_main {σ : Type} (env : Env σ) (argv : List String) (s : σ) (cfg : Config)
    (hp : parse_args env.atoi argv.tail init_config = Parsed.ok cfg) :
    power_transfers (main env argv s).trace = [] ∨
    power_transfers (main env argv s).trace = [power_request cfg.power cfg.port] := by
  unfold main
  simp only [hp]
  split
  · left
    exact power_transfers_list_hubs env _ s []
  · split_ifs
    · left
      exact power_transfers_list_hubs env _ s []
    · exact power_transfers_power_stage_sub env cfg _ _ _ _ (power_transfers_list_hubs env _ s [])

/-! ## Handles used by list_ports -/

lemma list_ports_loop_handle {σ : Type} (env : Env σ) (uh : usb_device) (n : Int) :
    ∀ (fuel : Nat) (i : Int) (s s' : σ) (t : List Event),
      list_ports_loop env uh n fuel i s = some (s', t) →
        ∀ d m, Event.usb_control_msg d m ∈ t → d = uh := by
  intro fuel
  induction fuel with
  | zero =>
    intro i s s' t h d m hm
    unfold list_ports_loop at h
    split_ifs at h
    simp only [Option.some.injEq, Prod.mk.injEq] at h
    rw [← h.2] at hm
    simp at hm
  | succ f ih =>
    intro i s s' t h d m hm
    unfold list_ports_loop at h
    dsimp only at h
    split_ifs at h with h1 h2
    · simp only [Option.some.injEq, Prod.mk.injEq] at h
      rw [← h.2] at hm
      simp at hm
      exact hm.1
    · split at h
      · exact absurd h (by simp)
      · rename_i s1 t1 heq
        simp only [Option.some.injEq, Prod.mk.injEq] at h
        rw [← h.2] at hm
        simp at hm
        rcases hm with hm | hm
        · exact hm.1
        · exact ih _ _ _ _ heq d m hm
    · simp only [Option.some.injEq, Prod.mk.injEq] at h
      rw [← h.2] at hm
      simp at hm

lemma list_ports_handle {σ : Type} (env : Env σ) (uh : usb_device) (n : Int)
    (s s' : σ) (t : List Event) (h : list_ports env uh n s = some (s', t)) :
    ∀ d m, Event.usb_control_msg d m ∈ t → d = uh := by
  intro d m hm
  unfold list_ports at h
  split at h
  · exact absurd h (by simp)
  · rename_i s1 t1 heq
    simp only [Option.some.injEq, Prod.mk.injEq] at h
    rw [← h.2] at hm
    simp at hm
    exact list_ports_loop_handle env uh n _ _ _ _ _ heq d m hm

/-! ## Resolution of the target hub -/

lemma get_hub_bounds (hubs : List hub_info) (busnum devnum : Int) :
    get_hub hubs busnum devnum = -1 ∨
      (0 ≤ get_hub hubs busnum devnum ∧ get_hub hubs busnum devnum < (hubs.length : Int)) := by
  unfold get_hub
  rcases get_hub_from_spec busnum devnum hubs 0 with ⟨h1, -⟩ | ⟨k, h, hk, hres, -, -⟩
  · left
    exact h1
  · right
    rcases List.getElem?_eq_some_iff.mp hk with ⟨hlt, -⟩
    rw [hres]
    constructor
    · exact Int.ofNat_nonneg _
    · simp only [Nat.zero_add]
      exact_mod_cast hlt

lemma power_stage_out_of_range {σ : Type} (env : Env σ) (cfg : Config) (s : σ)
    (hubs : List hub_info) (hub : Int) (pre : List Event)
    (hr : hub < 0 ∨ (hubs.length : Int) ≤ hub) :
    power_stage env cfg s hubs hub pre =
      { trace := pre ++ [Event.printf Out.device_not_found], outcome := Outcome.exit 1 } := by
  unfold power_stage
  have : ¬ (0 ≤ hub ∧ hub < (hubs.length : Int)) := by omega
  simp only [this, if_false]

lemma power_stage_in_range {σ : Type} (env : Env σ) (cfg : Config) (s : σ)
    (hubs : List hub_info) (hub : Int) (pre : List Event)
    (hr : 0 ≤ hub ∧ hub < (hubs.length : Int)) :
    ∃ ok rest, (power_stage env cfg s hubs hub pre).trace =
        pre ++ Event.usb_open (hubs.getD hub.toNat default).dev ok :: rest ∧
      ∀ d m, Event.usb_control_msg d m ∈ rest → d = (hubs.getD hub.toNat default).dev := by
  unfold power_stage
  simp only [hr, and_self, if_true]
  generalize hubs.getD hub.toNat default = h
  split_ifs with ho h2
  · refine ⟨true, _, rfl, ?_⟩
    intro d m hm
    simp at hm
    exact hm.1
  · split
    · refine ⟨true, _, rfl, ?_⟩
      intro d m hm
      simp at hm
      exact hm.1
    · rename_i s1 t1 heq
      refine ⟨true, _, by simp only [List.append_assoc, List.cons_append, List.nil_append]; rfl, ?_⟩
      intro d m hm
      simp at hm
      rcases hm with hm | hm
      · exact hm.1
      · exact list_ports_handle env _ _ _ _ _ heq d m hm
  · refine ⟨false, _, rfl, ?_⟩
    intro d m hm
    simp at hm

lemma main_after_list_hubs {σ : Type} (env : Env σ) (argv : List String) (s : σ) (cfg : Config)
    (hp : parse_args env.atoi argv.tail init_config = Parsed.ok cfg)
    (hport : cfg.port ≠ 0)
    (hl : (list_hubs env cfg.port s []).stop = none) :
    main env argv s =
      power_stage env cfg (list_hubs env cfg.port s []).st (list_hubs env cfg.port s []).hubs
        (resolve_hub cfg (list_hubs env cfg.port s []).hubs) (list_hubs env cfg.port s []).trace := by
  unfold main
  simp only [hp, hl, hport, if_false]

/-! ## Topologies without hubs -/

lemma list_hubs_devices_no_hub {σ : Type} (env : Env σ) (port : Int) (bus : usb_bus)
    (devs : List usb_device) (hnh : ∀ dev ∈ devs, dev.bDeviceClass ≠ USB_CLASS_HUB) :
    ∀ (s : σ) (hubs : List hub_info),
      list_hubs_devices env port bus devs s hubs =
        { st := s, hubs := hubs, trace := [], stop := none } := by
  induction devs with
  | nil => intro s hubs; rfl
  | cons d rest ih =>
    intro s hubs
    have hd : d.bDeviceClass ≠ USB_CLASS_HUB := hnh d (List.mem_cons_self _ _)
    have hdev : list_hubs_device env port bus d s hubs =
        { st := s, hubs := hubs, trace := [], stop := none } := by
      unfold list_hubs_device
      simp only [hd, ne_eq, not_false_eq_true, if_true]
    unfold list_hubs_devices
    simp only [hdev, ih (fun dev hdev' => hnh dev (List.mem_cons_of_mem _ hdev')),
      List.append_nil]

lemma list_hubs_busses_no_hub {σ : Type} (env : Env σ) (port : Int) (bs : List usb_bus)
    (hnh : ∀ bus ∈ bs, ∀ dev ∈ bus.devices, dev.bDeviceClass ≠ USB_CLASS_HUB) :
    ∀ (s : σ) (hubs : List hub_info),
      list_hubs_busses env port bs s hubs =
        { st := s, hubs := hubs, trace := [], stop := none } := by
  induction bs with
  | nil => intro s hubs; rfl
  | cons b rest ih =>
    intro s hubs
    unfold list_hubs_busses
    simp only [list_hubs_devices_no_hub env port b b.devices (hnh b (List.mem_cons_self _ _)),
      ih (fun bus hbus => hnh bus (List.mem_cons_of_mem _ hbus)), List.append_nil]

lemma list_hubs_no_hub {σ : Type} (env : Env σ) (port : Int) (s : σ)
    (hnh : ∀ bus ∈ env.busses, ∀ dev ∈ bus.devices, dev.bDeviceClass ≠ USB_CLASS_HUB) :
    list_hubs env port s [] =
      { st := s, hubs := [],
        trace := [Event.printf
          (if env.busses = [] then Out.bus_access_failed else Out.no_hub_found)],
        stop := some (Outcome.exit 1) } := by
  unfold list_hubs
  split
  · rename_i heq
    simp [heq]
  · rename_i b rest heq
    rw [← heq, list_hubs_busses_no_hub env port env.busses hnh]
    simp [heq]

/-! ## The events after list_hubs -/

lemma list_ports_loop_no_device_not_found {σ : Type} (env : Env σ) (uh : usb_device) (n : Int) :
    ∀ (fuel : Nat) (i : Int) (s s' : σ) (t : List Event),
      list_ports_loop env uh n fuel i s = some (s', t) →
        Event.printf Out.device_not_found ∉ t := by
  intro fuel
  induction fuel with
  | zero =>
    intro i s s' t h
    unfold list_ports_loop at h
    split_ifs at h
    simp only [Option.some.injEq, Prod.mk.injEq] at h
    rw [← h.2]
    simp
  | succ f ih =>
    intro i s s' t h
    unfold list_ports_loop at h
    dsimp only at h
    split_ifs at h with h1 h2
    · simp only [Option.some.injEq, Prod.mk.injEq] at h
      rw [← h.2]
      simp
    · split at h
      · exact absurd h (by simp)
      · rename_i s1 t1 heq
        simp only [Option.some.injEq, Prod.mk.injEq] at h
        rw [← h.2]
        have := ih _ _ _ _ heq
        simpa using this
    · simp only [Option.some.injEq, Prod.mk.injEq] at h
      rw [← h.2]
      simp

lemma list_ports_no_device_not_found {σ : Type} (env : Env σ) (uh : usb_device) (n : Int)
    (s s' : σ) (t : List Event) (h : list_ports env uh n s = some (s', t)) :
    Event.printf Out.device_not_found ∉ t := by
  unfold list_ports at h
  split at h
  · exact absurd h (by simp)
  · rename_i s1 t1 heq
    simp only [Option.some.injEq, Prod.mk.injEq] at h
    rw [← h.2]
    have := list_ports_loop_no_device_not_found env uh n _ _ _ _ _ heq
    simpa using this

/-- The power stage entered with an index in range whose device does not
open. -/
lemma power_stage_open_fails {σ : Type} (env : Env σ) (cfg : Config) (s : σ)
    (hubs : List hub_info) (hub : Int) (pre : List Event)
    (hr : 0 ≤ hub ∧ hub < (hubs.length : Int))
    (ho : (env.usb_open s (hubs.getD hub.toNat default).dev).1 = false) :
    power_stage env cfg s hubs hub pre =
      { trace := pre ++ [Event.usb_open (hubs.getD hub.toNat default).dev false,
                         Event.printf Out.device_not_found],
        outcome := Outcome.exit 1 } := by
  unfold power_stage
  simp only [hr, and_self, if_true, ho, Bool.false_eq_true, if_false]

/-- The power stage entered with an index in range whose device opens: the
power request is issued on that device right after the open, every later
transfer goes to the same device, and "Device not found" is not printed. -/
lemma power_stage_open_ok {σ : Type} (env : Env σ) (cfg : Config) (s : σ)
    (hubs : List hub_info) (hub : Int) (pre : List Event)
    (hr : 0 ≤ hub ∧ hub < (hubs.length : Int))
    (ho : (env.usb_open s (hubs.getD hub.toNat default).dev).1 = true) :
    ∃ rest, (power_stage env cfg s hubs hub pre).trace =
        pre ++ Event.usb_open (hubs.getD hub.toNat default).dev true
          :: Event.usb_control_msg (hubs.getD hub.toNat default).dev
               (power_request cfg.power cfg.port) :: rest
      ∧ (∀ d m, Event.usb_control_msg d m ∈ rest → d = (hubs.getD hub.toNat default).dev)
      ∧ Event.printf Out.device_not_found ∉ rest := by
  unfold power_stage
  simp only [hr, and_self, if_true, ho]
  generalize hubs.getD hub.toNat default = h
  split_ifs with h2
  · refine ⟨_, rfl, ?_, ?_⟩
    · intro d m hm
      simp at hm
    · simp
  · split
    · refine ⟨[], rfl, ?_, ?_⟩
      · intro d m hm
        simp at hm
      · simp
    · rename_i s1 t1 heq
      refine ⟨_, by simp only [List.append_assoc, List.cons_append, List.nil_append]; rfl,
        ?_, ?_⟩
      · intro d m hm
        simp at hm
        exact list_ports_handle env _ _ _ _ _ heq d m hm
      · have := list_ports_no_device_not_found env _ _ _ _ _ heq
        simpa using this

/-! ## The argument loop -/

/-- The argument loop changes `power` only in the case `'p'`. -/
lemma parse_args_power (atoi : String → Int) (args : List String) (c : Config) :
    ∀ c' : Config, (∀ a ∈ args, is_power_option a = false) →
      parse_args atoi args c = Parsed.ok c' → c'.power = c.power := by
  induction args, c using parse_args.induct atoi with
  | case1 c =>
    intro c' _ h
    simp only [parse_args, Parsed.ok.injEq] at h
    rw [← h]
  | case2 a c tail heq =>
    intro c' _ h
    rw [parse_args.eq_2] at h
    simp [heq] at h
  | case3 a c tail heq v rest' ih =>
    intro c' hno h
    rw [parse_args.eq_3] at h
    simp only [heq] at h
    exact ih c' (fun x hx => hno x (List.mem_cons_of_mem _ (List.mem_cons_of_mem _ hx))) h
  | case4 a c tail heq hc =>
    intro c' _ h
    rw [parse_args.eq_2] at h
    simp [heq, hc] at h
  | case5 a c tail heq hc v rest' ih =>
    intro c' hno h
    rw [parse_args.eq_3] at h
    simp only [heq] at h
    rw [if_pos hc] at h
    exact ih c' (fun x hx => hno x (List.mem_cons_of_mem _ (List.mem_cons_of_mem _ hx))) h
  | case6 a rest c tail heq hc ih =>
    intro c' hno h
    apply ih c' (fun x hx => hno x (List.mem_cons_of_mem _ hx))
    cases rest with
    | nil =>
      rw [parse_args.eq_2] at h
      simpa [heq, hc] using h
    | cons v rest' =>
      rw [parse_args.eq_3] at h
      simpa [heq, hc] using h
  | case7 a c tail heq hc =>
    intro c' _ h
    rw [parse_args.eq_2] at h
    simp [heq, hc] at h
  | case8 a c tail heq hc v rest' ih =>
    intro c' hno h
    rw [parse_args.eq_3] at h
    simp only [heq] at h
    rw [if_pos hc] at h
    exact ih c' (fun x hx => hno x (List.mem_cons_of_mem _ (List.mem_cons_of_mem _ hx))) h
  | case9 a rest c tail heq hc ih =>
    intro c' hno h
    apply ih c' (fun x hx => hno x (List.mem_cons_of_mem _ hx))
    cases rest with
    | nil =>
      rw [parse_args.eq_2] at h
      simpa [heq, hc] using h
    | cons v rest' =>
      rw [parse_args.eq_3] at h
      simpa [heq, hc] using h
  | case10 a c tail heq =>
    intro c' _ h
    rw [parse_args.eq_2] at h
    simp [heq] at h
  | case11 a c tail heq v rest' ih =>
    intro c' hno h
    rw [parse_args.eq_3] at h
    simp only [heq] at h
    exact ih c' (fun x hx => hno x (List.mem_cons_of_mem _ (List.mem_cons_of_mem _ hx))) h
  | case12 a c tail heq =>
    intro c' hno _
    have := hno a (List.mem_cons_self _ _)
    simp [is_power_option, heq] at this
  | case13 a c tail heq v rest' _ =>
    intro c' hno _
    have := hno a (List.mem_cons_self _ _)
    simp [is_power_option, heq] at this
  | case14 a rest c h1 h2 h3 h4 h5 =>
    intro c' _ h
    cases rest with
    | nil =>
      rw [parse_args.eq_2] at h
      split at h
      · rename_i t e; exact absurd e (fun e => h1 t e)
      · rename_i t e; exact absurd e (fun e => h2 t e)
      · rename_i t e; exact absurd e (fun e => h3 t e)
      · rename_i t e; exact absurd e (fun e => h4 t e)
      · rename_i t e; exact absurd e (fun e => h5 t e)
      · simp at h
    | cons v rest' =>
      rw [parse_args.eq_3] at h
      split at h
      · rename_i t e; exact absurd e (fun e => h1 t e)
      · rename_i t e; exact absurd e (fun e => h2 t e)
      · rename_i t e; exact absurd e (fun e => h3 t e)
      · rename_i t e; exact absurd e (fun e => h4 t e)
      · rename_i t e; exact absurd e (fun e => h5 t e)
      · simp at h

/-- The argument loop changes `hub` only in the case `'H'`. -/
lemma parse_args_hub (atoi : String → Int) (args : List String) (c : Config) :
    ∀ c' : Config, (∀ a ∈ args, is_hub_option a = false) →
      parse_args atoi args c = Parsed.ok c' → c'.hub = c.hub := by
  induction args, c using parse_args.induct atoi with
  | case1 c =>
    intro c' _ h
    simp only [parse_args, Parsed.ok.injEq] at h
    rw [← h]
  | case2 a c tail heq =>
    intro c' hno _
    have := hno a (List.mem_cons_self _ _)
    simp [is_hub_option, heq] at this
  | case3 a c tail heq v rest' _ =>
    intro c' hno _
    have := hno a (List.mem_cons_self _ _)
    simp [is_hub_option, heq] at this
  | case4 a c tail heq hc =>
    intro c' _ h
    rw [parse_args.eq_2] at h
    simp [heq, hc] at h
  | case5 a c tail heq hc v rest' ih =>
    intro c' hno h
    rw [parse_args.eq_3] at h
    simp only [heq] at h
    rw [if_pos hc] at h
    exact ih c' (fun x hx => hno x (List.mem_cons_of_mem _ (List.mem_cons_of_mem _ hx))) h
  | case6 a rest c tail heq hc ih =>
    intro c' hno h
    apply ih c' (fun x hx => hno x (List.mem_cons_of_mem _ hx))
    cases rest with
    | nil =>
      rw [parse_args.eq_2] at h
      simpa [heq, hc] using h
    | cons v rest' =>
      rw [parse_args.eq_3] at h
      simpa [heq, hc] using h
  | case7 a c tail heq hc =>
    intro c' _ h
    rw [parse_args.eq_2] at h
    simp [heq, hc] at h
  | case8 a c tail heq hc v rest' ih =>
    intro c' hno h
    rw [parse_args.eq_3] at h
    simp only [heq] at h
    rw [if_pos hc] at h
    exact ih c' (fun x hx => hno x (List.mem_cons_of_mem _ (List.mem_cons_of_mem _ hx))) h
  | case9 a rest c tail heq hc ih =>
    intro c' hno h
    apply ih c' (fun x hx => hno x (List.mem_cons_of_mem _ hx))
    cases rest with
    | nil =>
      rw [parse_args.eq_2] at h
      simpa [heq, hc] using h
    | cons v rest' =>
      rw [parse_args.eq_3] at h
      simpa [heq, hc] using h
  | case10 a c tail heq =>
    intro c' _ h
    rw [parse_args.eq_2] at h
    simp [heq] at h
  | case11 a c tail heq v rest' ih =>
    intro c' hno h
    rw [parse_args.eq_3] at h
    simp only [heq] at h
    exact ih c' (fun x hx => hno x (List.mem_cons_of_mem _ (List.mem_cons_of_mem _ hx))) h
  | case12 a c tail heq =>
    intro c' _ h
    rw [parse_args.eq_2] at h
    simp [heq] at h
  | case13 a c tail heq v rest' ih =>
    intro c' hno h
    rw [parse_args.eq_3] at h
    simp only [heq] at h
    exact ih c' (fun x hx => hno x (List.mem_cons_of_mem _ (List.mem_cons_of_mem _ hx))) h
  | case14 a rest c h1 h2 h3 h4 h5 =>
    intro c' _ h
    cases rest with
    | nil =>
      rw [parse_args.eq_2] at h
      split at h
      · rename_i t e; exact absurd e (fun e => h1 t e)
      · rename_i t e; exact absurd e (fun e => h2 t e)
      · rename_i t e; exact absurd e (fun e => h3 t e)
      · rename_i t e; exact absurd e (fun e => h4 t e)
      · rename_i t e; exact absurd e (fun e => h5 t e)
      · simp at h
    | cons v rest' =>
      rw [parse_args.eq_3] at h
      split at h
      · rename_i t e; exact absurd e (fun e => h1 t e)
      · rename_i t e; exact absurd e (fun e => h2 t e)
      · rename_i t e; exact absurd e (fun e => h3 t e)
      · rename_i t e; exact absurd e (fun e => h4 t e)
      · rename_i t e; exact absurd e (fun e => h5 t e)
      · simp at h

/-! ## Claims about main -/

/-- C1: in every run of `main` with a nonzero port number whose `list_hubs`
returns, whose hub index resolves inside the registry and whose hub opens, the
feature requests issued over the whole run are exactly one transfer, and it has
bmRequestType 0x23 (class, other, OUT), wValue 8 (PORT_POWER), wIndex equal to
the port number, length 0 and timeout 1000. -/
theorem C1_one_power_transfer {σ : Type} (env : Env σ) (argv : List String) (s : σ)
    (cfg : Config)
    (hp : parse_args env.atoi argv.tail init_config = Parsed.ok cfg)
    (hport : cfg.port ≠ 0)
    (hl : (list_hubs env cfg.port s []).stop = none)
    (hr : 0 ≤ resolve_hub cfg (list_hubs env cfg.port s []).hubs ∧
          resolve_hub cfg (list_hubs env cfg.port s []).hubs
            < ((list_hubs env cfg.port s []).hubs.length : Int))
    (ho : (env.usb_open (list_hubs env cfg.port s []).st
            ((list_hubs env cfg.port s []).hubs.getD
              (resolve_hub cfg (list_hubs env cfg.port s []).hubs).toNat default).dev).1 = true) :
    power_transfers (main env argv s).trace =
      [ctrl_msg.mk 0x23 (if cfg.power > 0 then USB_REQ_SET_FEATURE else USB_REQ_CLEAR_FEATURE)
        8 cfg.port 0 1000] := by
  rw [main_after_list_hubs env argv s cfg hp hport hl,
    power_transfers_power_stage env cfg _ _ _ _ (power_transfers_list_hubs env _ s []) hr ho,
    power_request_eq]

/-- C1, witness: one hub at bus 1 device 2, arguments `-H 0 -P 3 -p 0`; the one
power transfer has wIndex 3. -/
theorem C1_one_power_transfer_witness :
    parse_args demo_env.atoi demo_argv.tail init_config
        = Parsed.ok { busnum := 0, devnum := 0, port := 3, power := 0, hub := 0 }
    ∧ power_transfers (main demo_env demo_argv ()).trace =
        [ctrl_msg.mk 0x23 USB_REQ_CLEAR_FEATURE 8 3 0 1000] :=
  ⟨by decide,
   C1_one_power_transfer demo_env demo_argv ()
     { busnum := 0, devnum := 0, port := 3, power := 0, hub := 0 }
     (by decide) (by decide) (by decide) (by decide) (by decide)⟩

/-- C2 (as stated, refuted): `-p -1` gives the nonzero value -1, yet the power
transfer of the run is a CLEAR_FEATURE request. -/
theorem C2_negative_power_clears :
    atoi_model "-1" = -1
    ∧ parse_args demo_env.atoi ["-H", "0", "-P", "3", "-p", "-1"] init_config
        = Parsed.ok { busnum := 0, devnum := 0, port := 3, power := -1, hub := 0 }
    ∧ power_transfers (main demo_env ["hub-ctrl", "-H", "0", "-P", "3", "-p", "-1"] ()).trace =
        [ctrl_msg.mk 0x23 USB_REQ_CLEAR_FEATURE 8 3 0 1000] := by
  decide

/-- C2 (amended): in every run of `main` with a nonzero port number whose hub
resolves and opens, the transfer issued right after the open is the power
request `m = (0x23, bRequest, 8, port, 0, 1000)`, it is the only feature request
of the run, and its bRequest is SET_FEATURE exactly when the parsed power value
is positive and CLEAR_FEATURE exactly when that value is zero or negative.
The option `-p v` stores `atoi v` as the power value, and the value is 1 (so
the request is SET_FEATURE) when no argument selects the option `-p`. -/
theorem C2_request_by_sign {σ : Type} (env : Env σ) (argv : List String) (s : σ)
    (cfg : Config)
    (hp : parse_args env.atoi argv.tail init_config = Parsed.ok cfg)
    (hport : cfg.port ≠ 0)
    (hl : (list_hubs env cfg.port s []).stop = none)
    (hr : 0 ≤ resolve_hub cfg (list_hubs env cfg.port s []).hubs ∧
          resolve_hub cfg (list_hubs env cfg.port s []).hubs
            < ((list_hubs env cfg.port s []).hubs.length : Int))
    (ho : (env.usb_open (list_hubs env cfg.port s []).st
            ((list_hubs env cfg.port s []).hubs.getD
              (resolve_hub cfg (list_hubs env cfg.port s []).hubs).toNat default).dev).1 = true) :
    (∃ m rest,
        (main env argv s).trace =
          (list_hubs env cfg.port s []).trace
            ++ Event.usb_open ((list_hubs env cfg.port s []).hubs.getD
                  (resolve_hub cfg (list_hubs env cfg.port s []).hubs).toNat default).dev true
            :: Event.usb_control_msg ((list_hubs env cfg.port s []).hubs.getD
                  (resolve_hub cfg (list_hubs env cfg.port s []).hubs).toNat default).dev m
            :: rest
        ∧ power_transfers (main env argv s).trace = [m]
        ∧ m = ctrl_msg.mk 0x23 m.request 8 cfg.port 0 1000
        ∧ (m.request = USB_REQ_SET_FEATURE ↔ 0 < cfg.power)
        ∧ (m.request = USB_REQ_CLEAR_FEATURE ↔ cfg.power ≤ 0))
    ∧ USB_REQ_SET_FEATURE ≠ USB_REQ_CLEAR_FEATURE
    ∧ (∀ (v : String) (rest : List String) (c : Config),
        parse_args env.atoi ("-p" :: v :: rest) c =
          parse_args env.atoi rest { c with power := env.atoi v })
    ∧ ((∀ a ∈ argv.tail, is_power_option a = false) → cfg.power = 1) := by
  refine ⟨?_, by decide, fun v rest c => rfl, ?_⟩
  · obtain ⟨rest, htrace, -, -⟩ := power_stage_open_ok env cfg _ _ _
      (list_hubs env cfg.port s []).trace hr ho
    refine ⟨power_request cfg.power cfg.port, rest, ?_, ?_, ?_, ?_, ?_⟩
    · rw [main_after_list_hubs env argv s cfg hp hport hl]
      exact htrace
    · rw [main_after_list_hubs env argv s cfg hp hport hl]
      exact power_transfers_power_stage env cfg _ _ _ _
        (power_transfers_list_hubs env _ s []) hr ho
    · rw [power_request_eq]
    · simp only [power_request]
      split_ifs with hpos
      · constructor
        · intro _
          omega
        · intro _
          trivial
      · simp only [USB_REQ_SET_FEATURE, USB_REQ_CLEAR_FEATURE]
        constructor
        · intro h'
          norm_num at h'
        · intro h'
          omega
    · simp only [power_request]
      split_ifs with hpos
      · simp only [USB_REQ_SET_FEATURE, USB_REQ_CLEAR_FEATURE]
        constructor
        · intro h'
          norm_num at h'
        · intro h'
          omega
      · constructor
        · intro _
          omega
        · intro _
          trivial
  · intro hno
    exact parse_args_power env.atoi argv.tail init_config cfg hno hp

/-- C2 (amended), witness: the run with `-H 0 -P 3 -p -1`, whose power value
is negative. -/
theorem C2_request_by_sign_witness :
    parse_args demo_env.atoi negative_power_argv.tail init_config
        = Parsed.ok { busnum := 0, devnum := 0, port := 3, power := -1, hub := 0 }
    ∧ ∃ m rest,
        (main demo_env negative_power_argv ()).trace =
          (list_hubs demo_env 3 () []).trace
            ++ Event.usb_open demo_hub true :: Event.usb_control_msg demo_hub m :: rest
        ∧ power_transfers (main demo_env negative_power_argv ()).trace = [m]
        ∧ m = ctrl_msg.mk 0x23 m.request 8 3 0 1000
        ∧ (m.request = USB_REQ_SET_FEATURE ↔ (0 : Int) < -1)
        ∧ (m.request = USB_REQ_CLEAR_FEATURE ↔ (-1 : Int) ≤ 0) :=
  ⟨by decide,
   (C2_request_by_sign demo_env negative_power_argv ()
     { busnum := 0, devnum := 0, port := 3, power := -1, hub := 0 }
     (by decide) (by decide) (by decide) (by decide) (by decide)).1⟩

/-- C6 (as stated, refuted): the explicit hub index -5 is supplied with `-H`
after `-B 1 -D 2`; -5 lies outside `[0, hub_count)`, yet the run looks the hub
up by address, issues the power transfer and exits with status 0 without
reporting "Device not found". -/
theorem C6_negative_index_is_looked_up :
    parse_args demo_env.atoi negative_hub_argv.tail init_config
        = Parsed.ok { busnum := 1, devnum := 2, port := 3, power := 1, hub := -5 }
    ∧ (list_hubs demo_env 3 () []).hubs.length = 1
    ∧ (main demo_env negative_hub_argv ()).outcome = Outcome.exit 0
    ∧ power_transfers (main demo_env negative_hub_argv ()).trace =
        [ctrl_msg.mk 0x23 USB_REQ_SET_FEATURE 8 3 0 1000]
    ∧ Out.device_not_found ∉ printed (main demo_env negative_hub_argv ()).trace := by
  decide

/-- C6 (amended): in every run of `main` with a nonzero port number in which
`list_hubs` returns, let `n` be the parsed hub index (`-H v` stores `atoi v`;
`n = -1` when no argument selects `-H`) and let `i` be the index `main` uses:
`i = n` when `n ≥ 0`, and `i = get_hub (busnum, devnum)` when `n < 0`.
If `i` lies outside `[0, hub_count)` (in particular for every `n ≥ hub_count`,
and for `n < 0` when `get_hub` returns -1) the run reports "Device not found"
right after `list_hubs`, exits with status 1 and issues no power transfer.
If `i` lies inside, the device opened next is `hubs[i].dev`: when the open fails
the run reports "Device not found", exits with status 1 and issues no power
transfer; when it succeeds the power request is issued on `hubs[i].dev` right
after the open, it is the only power transfer, every later transfer goes to
the same device, and "Device not found" is not reported afterwards. -/
theorem C6_hub_index_resolution {σ : Type} (env : Env σ) (argv : List String) (s : σ)
    (cfg : Config)
    (hp : parse_args env.atoi argv.tail init_config = Parsed.ok cfg)
    (hport : cfg.port ≠ 0)
    (hl : (list_hubs env cfg.port s []).stop = none) :
    (0 ≤ cfg.hub → resolve_hub cfg (list_hubs env cfg.port s []).hubs = cfg.hub)
    ∧ (cfg.hub < 0 → resolve_hub cfg (list_hubs env cfg.port s []).hubs =
        get_hub (list_hubs env cfg.port s []).hubs cfg.busnum cfg.devnum)
    ∧ ((resolve_hub cfg (list_hubs env cfg.port s []).hubs < 0 ∨
        ((list_hubs env cfg.port s []).hubs.length : Int)
          ≤ resolve_hub cfg (list_hubs env cfg.port s []).hubs) →
        main env argv s =
          { trace := (list_hubs env cfg.port s []).trace ++ [Event.printf Out.device_not_found],
            outcome := Outcome.exit 1 }
        ∧ power_transfers (main env argv s).trace = [])
    ∧ (((list_hubs env cfg.port s []).hubs.length : Int) ≤ cfg.hub →
        main env argv s =
          { trace := (list_hubs env cfg.port s []).trace ++ [Event.printf Out.device_not_found],
            outcome := Outcome.exit 1 }
        ∧ power_transfers (main env argv s).trace = [])
    ∧ (cfg.hub < 0 →
        get_hub (list_hubs env cfg.port s []).hubs cfg.busnum cfg.devnum = -1 →
        main env argv s =
          { trace := (list_hubs env cfg.port s []).trace ++ [Event.printf Out.device_not_found],
            outcome := Outcome.exit 1 }
        ∧ power_transfers (main env argv s).trace = [])
    ∧ (0 ≤ resolve_hub cfg (list_hubs env cfg.port s []).hubs →
        resolve_hub cfg (list_hubs env cfg.port s []).hubs
          < ((list_hubs env cfg.port s []).hubs.length : Int) →
        (env.usb_open (list_hubs env cfg.port s []).st
            ((list_hubs env cfg.port s []).hubs.getD
              (resolve_hub cfg (list_hubs env cfg.port s []).hubs).toNat default).dev).1 = false →
        main env argv s =
          { trace := (list_hubs env cfg.port s []).trace
              ++ [Event.usb_open ((list_hubs env cfg.port s []).hubs.getD
                    (resolve_hub cfg (list_hubs env cfg.port s []).hubs).toNat default).dev false,
                  Event.printf Out.device_not_found],
            outcome := Outcome.exit 1 }
        ∧ power_transfers (main env argv s).trace = [])
    ∧ (0 ≤ resolve_hub cfg (list_hubs env cfg.port s []).hubs →
        resolve_hub cfg (list_hubs env cfg.port s []).hubs
          < ((list_hubs env cfg.port s []).hubs.length : Int) →
        (env.usb_open (list_hubs env cfg.port s []).st
            ((list_hubs env cfg.port s []).hubs.getD
              (resolve_hub cfg (list_hubs env cfg.port s []).hubs).toNat default).dev).1 = true →
        ∃ rest, (main env argv s).trace =
            (list_hubs env cfg.port s []).trace
              ++ Event.usb_open ((list_hubs env cfg.port s []).hubs.getD
                    (resolve_hub cfg (list_hubs env cfg.port s []).hubs).toNat default).dev true
              :: Event.usb_control_msg ((list_hubs env cfg.port s []).hubs.getD
                    (resolve_hub cfg (list_hubs env cfg.port s []).hubs).toNat default).dev
                    (power_request cfg.power cfg.port)
              :: rest
          ∧ (∀ d m, Event.usb_control_msg d m ∈ rest →
              d = ((list_hubs env cfg.port s []).hubs.getD
                    (resolve_hub cfg (list_hubs env cfg.port s []).hubs).toNat default).dev)
          ∧ Event.printf Out.device_not_found ∉ rest
          ∧ power_transfers (main env argv s).trace = [power_request cfg.power cfg.port])
    ∧ (∀ (v : String) (rest : List String) (c : Config),
        parse_args env.atoi ("-H" :: v :: rest) c =
          parse_args env.atoi rest { c with hub := env.atoi v })
    ∧ ((∀ a ∈ argv.tail, is_hub_option a = false) → cfg.hub = -1) := by
  have hmain := main_after_list_hubs env argv s cfg hp hport hl
  have hpre := power_transfers_list_hubs env cfg.port s []
  have hlen : (0 : Int) ≤ ((list_hubs env cfg.port s []).hubs.length : Int) :=
    Int.ofNat_nonneg _
  have hres0 : 0 ≤ cfg.hub → resolve_hub cfg (list_hubs env cfg.port s []).hubs = cfg.hub := by
    intro h0
    unfold resolve_hub
    rw [if_neg (by omega)]
  have hresneg : cfg.hub < 0 → resolve_hub cfg (list_hubs env cfg.port s []).hubs =
      get_hub (list_hubs env cfg.port s []).hubs cfg.busnum cfg.devnum := by
    intro hneg
    unfold resolve_hub
    rw [if_pos hneg]
  have hout : (resolve_hub cfg (list_hubs env cfg.port s []).hubs < 0 ∨
        ((list_hubs env cfg.port s []).hubs.length : Int)
          ≤ resolve_hub cfg (list_hubs env cfg.port s []).hubs) →
        main env argv s =
          { trace := (list_hubs env cfg.port s []).trace ++ [Event.printf Out.device_not_found],
            outcome := Outcome.exit 1 }
        ∧ power_transfers (main env argv s).trace = [] := by
    intro hor
    rw [hmain, power_stage_out_of_range env cfg _ _ _ _ hor]
    refine ⟨rfl, ?_⟩
    rw [power_transfers_append, hpre]
    rfl
  refine ⟨hres0, hresneg, hout, ?_, ?_, ?_, ?_, fun v rest c => rfl, ?_⟩
  · intro hge
    apply hout
    right
    rw [hres0 (by omega)]
    exact hge
  · intro hneg hnf
    apply hout
    left
    rw [hresneg hneg, hnf]
    decide
  · intro h0 h1 hof
    rw [hmain, power_stage_open_fails env cfg _ _ _ _ ⟨h0, h1⟩ hof]
    refine ⟨rfl, ?_⟩
    rw [power_transfers_append, hpre]
    rfl
  · intro h0 h1 hok
    obtain ⟨rest, htrace, hdev, hnf⟩ := power_stage_open_ok env cfg _ _ _
      (list_hubs env cfg.port s []).trace ⟨h0, h1⟩ hok
    refine ⟨rest, ?_, hdev, hnf, ?_⟩
    · rw [hmain]
      exact htrace
    · rw [hmain]
      exact power_transfers_power_stage env cfg _ _ _ _ hpre ⟨h0, h1⟩ hok
  · intro hno
    exact parse_args_hub env.atoi argv.tail init_config cfg hno hp

/-- C6 (amended), witness: `-B 1 -D 2 -H -5 -P 3` on a transport whose second
`usb_open` fails: the negative index is looked up by address, `get_hub` finds
the hub at index 0, the open fails and the run ends with "Device not found". -/
theorem C6_hub_index_resolution_witness :
    parse_args second_open_fails_env.atoi negative_hub_argv.tail init_config
        = Parsed.ok { busnum := 1, devnum := 2, port := 3, power := 1, hub := -5 }
    ∧ get_hub (list_hubs second_open_fails_env 3 0 []).hubs 1 2 = 0
    ∧ main second_open_fails_env negative_hub_argv 0 =
        { trace := (list_hubs second_open_fails_env 3 0 []).trace
            ++ [Event.usb_open demo_hub false, Event.printf Out.device_not_found],
          outcome := Outcome.exit 1 }
    ∧ power_transfers (main second_open_fails_env negative_hub_argv 0).trace = [] :=
  ⟨by decide, by decide,
   (C6_hub_index_resolution second_open_fails_env negative_hub_argv 0
      { busnum := 1, devnum := 2, port := 3, power := 1, hub := -5 }
      (by decide) (by decide) (by decide)).2.2.2.2.2.1 (by decide) (by decide) (by decide)⟩

/-- C9 (as stated, refuted): on a topology with no bus at all the run reports
"Failed to access USB bus." and never the no-hub-found message. -/
theorem C9_no_bus_reports_bus_failure :
    no_bus_env.busses = []
    ∧ parse_args no_bus_env.atoi ["-P", "3"] init_config
        = Parsed.ok { busnum := 0, devnum := 0, port := 3, power := 1, hub := -1 }
    ∧ main no_bus_env ["hub-ctrl", "-P", "3"] () =
        { trace := [Event.printf Out.bus_access_failed], outcome := Outcome.exit 1 }
    ∧ Out.no_hub_found ∉ printed (main no_bus_env ["hub-ctrl", "-P", "3"] ()).trace := by
  decide

/-- C9 (amended): for every command line that parses and every topology
without a hub-class device, the run issues no control transfer and exits with
status 1; when there is at least one bus its only event is the report "No hub
found.", and when there is no bus at all its only event is the report "Failed
to access USB bus.". -/
theorem C9_no_hub_class_device {σ : Type} (env : Env σ) (argv : List String) (s : σ)
    (cfg : Config)
    (hp : parse_args env.atoi argv.tail init_config = Parsed.ok cfg)
    (hnh : ∀ bus ∈ env.busses, ∀ dev ∈ bus.devices, dev.bDeviceClass ≠ USB_CLASS_HUB) :
    transfers (main env argv s).trace = []
    ∧ (main env argv s).outcome = Outcome.exit 1
    ∧ (env.busses ≠ [] → (main env argv s).trace = [Event.printf Out.no_hub_found])
    ∧ (env.busses = [] → (main env argv s).trace = [Event.printf Out.bus_access_failed]) := by
  have hm : main env argv s =
      { trace := [Event.printf
          (if env.busses = [] then Out.bus_access_failed else Out.no_hub_found)],
        outcome := Outcome.exit 1 } := by
    unfold main
    simp only [hp, list_hubs_no_hub env cfg.port s hnh]
  rw [hm]
  refine ⟨rfl, rfl, ?_, ?_⟩
  · intro h
    simp only [h, if_false]
  · intro h
    simp only [h, if_true]

/-- C9 (amended), witness: one bus whose only device is not a hub. -/
theorem C9_no_hub_class_device_witness :
    parse_args no_hub_env.atoi ["-P", "3"] init_config
        = Parsed.ok { busnum := 0, devnum := 0, port := 3, power := 1, hub := -1 }
    ∧ (∀ bus ∈ no_hub_env.busses, ∀ dev ∈ bus.devices, dev.bDeviceClass ≠ USB_CLASS_HUB)
    ∧ (transfers (main no_hub_env ["hub-ctrl", "-P", "3"] ()).trace = []
      ∧ (main no_hub_env ["hub-ctrl", "-P", "3"] ()).outcome = Outcome.exit 1
      ∧ (no_hub_env.busses ≠ [] →
          (main no_hub_env ["hub-ctrl", "-P", "3"] ()).trace = [Event.printf Out.no_hub_found])
      ∧ (no_hub_env.busses = [] →
          (main no_hub_env ["hub-ctrl", "-P", "3"] ()).trace
            = [Event.printf Out.bus_access_failed])) :=
  ⟨by decide, by decide,
   C9_no_hub_class_device no_hub_env ["hub-ctrl", "-P", "3"] ()
     { busnum := 0, devnum := 0, port := 3, power := 1, hub := -1 } (by decide) (by decide)⟩

/-! ## The descriptor check and the registry bound -/

/-- A descriptor transfer that returns between 0 and 7 bytes makes `list_hubs`
report the error, close the device and leave the registry as it was. -/
lemma list_hubs_device_short_descriptor {σ : Type} (env : Env σ) (bus : usb_bus)
    (dev : usb_device) (s : σ) (hubs : List hub_info)
    (hclass : dev.bDeviceClass = USB_CLASS_HUB)
    (hopen : (env.usb_open s dev).1 = true)
    (h0 : 0 ≤ (env.usb_control_msg (env.usb_open s dev).2 dev descriptor_request).ret)
    (h7 : (env.usb_control_msg (env.usb_open s dev).2 dev descriptor_request).ret ≤ 7) :
    list_hubs_device env 0 bus dev s hubs =
      { st := env.usb_close
                (env.usb_control_msg (env.usb_open s dev).2 dev descriptor_request).st dev,
        hubs := hubs,
        trace := [Event.usb_open dev true,
                  Event.usb_control_msg dev descriptor_request,
                  Event.printf Out.cant_get_hub_descriptor,
                  Event.usb_close dev],
        stop := none } := by
  have hsz : ¬ to_size_t (env.usb_control_msg (env.usb_open s dev).2 dev descriptor_request).ret
      > sizeof_hub_metadata := by
    unfold to_size_t sizeof_hub_metadata SIZE_T_BITS
    omega
  unfold list_hubs_device
  simp only [hclass, ne_eq, not_true_eq_false, if_false, hopen, if_true, hsz]

/-- A negative `int` compared with `sizeof (struct hub_metadata)` is converted
to `size_t` and exceeds it. -/
lemma negative_len_passes_check (len : Int) (hlo : -2147483648 ≤ len) (hneg : len < 0) :
    to_size_t len > sizeof_hub_metadata := by
  unfold to_size_t sizeof_hub_metadata SIZE_T_BITS
  omega

/-- C5 (the code at the failing input): with verbose listing (`port = 0`) and a
GET_DESCRIPTOR transfer that fails with -1, the comparison `len > sizeof
(struct hub_metadata)` is true after conversion of -1 to `size_t`; the hub is
not reported as an error but listed, registered with the port count found in
the unwritten buffer, and its ports are queried. -/
theorem C5_failed_descriptor_is_registered :
    (failed_descriptor_env.usb_control_msg () demo_hub descriptor_request).ret = -1
    ∧ to_size_t (-1) > sizeof_hub_metadata
    ∧ (list_hubs failed_descriptor_env 0 () []).hubs =
        [{ busnum := 1, devnum := 2, dev := demo_hub, port_count := 4 }]
    ∧ (list_hubs failed_descriptor_env 0 () []).stop = none
    ∧ Out.cant_get_hub_descriptor ∉ printed (list_hubs failed_descriptor_env 0 () []).trace
    ∧ Out.hub_line 0 1 2 ∈ printed (list_hubs failed_descriptor_env 0 () []).trace
    ∧ transfers (list_hubs failed_descriptor_env 0 () []).trace =
        [descriptor_request, status_request 1, status_request 2, status_request 3,
         status_request 4] := by
  decide

set_option maxRecDepth 1000000 in
/-- C8 (the code at the failing input): on a topology of 129 hubs that all open,
`list_hubs` registers 128 of them without any report and then stores the 129th
at `hubs[128]`, outside the array of `MAX_HUBS = 128` entries; no registry-full
error is printed (the only output is the colour reset of each port listing). -/
theorem C8_store_beyond_max_hubs :
    MAX_HUBS = 128
    ∧ (crowded_env.busses.map (fun b => b.devices.length)).sum = 129
    ∧ (list_hubs crowded_env 3 () []).stop = some (Outcome.undefined_store 128)
    ∧ (list_hubs crowded_env 3 () []).hubs.length = 128
    ∧ printed (list_hubs crowded_env 3 () []).trace = List.replicate 128 Out.color_reset
    ∧ (main crowded_env ["hub-ctrl", "-H", "0", "-P", "3"] ()).outcome
        = Outcome.undefined_store 128 := by
  decide

/-! ## The end-to-end example of the specification -/

/-- C10 (as stated, refuted): for the reply `05 03 00 00` the status line of
port 3 carries the words power, lowspeed, connect and suspend; it is not the
line with connect, enable, power and highspeed, and neither enable nor
highspeed is reported. -/
theorem C10_reply_05_03_is_not_enabled_highspeed :
    Event.printf (Out.port_line false 3
          [" power", " lowspeed", "", "", "", " connect", "", " suspend", "", ""])
        ∈ (main demo_env demo_argv ()).trace
    ∧ (∀ last, Event.printf (Out.port_line last 3
          [" power", "", " highspeed", "", "", " connect", " enable", "", "", ""])
        ∉ (main demo_env demo_argv ()).trace)
    ∧ " enable" ∉ status_words true spec_status_reply
    ∧ " highspeed" ∉ status_words true spec_status_reply
    ∧ " lowspeed" ∈ status_words true spec_status_reply
    ∧ " suspend" ∈ status_words true spec_status_reply := by
  decide

/-- C10 (amended): for the reply `05 03 00 00` (whatever bytes follow, and for
either signedness of `char`) the status line reports the flags power, lowspeed,
connect and suspend and no other flag; the flags connect, enable, power and
highspeed are those of the reply `03 05 00 00`.  In the end-to-end run the line
printed for port 3 is the one with power, lowspeed, connect and suspend. -/
theorem C10_reply_05_03_words (sg : Bool) (buf : Nat → Nat) :
    status_words sg (fun k => if k = 0 then 0x05 else if k = 1 then 0x03 else buf k) =
      [" power", " lowspeed", "", "", "", " connect", "", " suspend", "", ""]
    ∧ status_words sg (fun k => if k = 0 then 0x03 else if k = 1 then 0x05 else buf k) =
      [" power", "", " highspeed", "", "", " connect", " enable", "", "", ""]
    ∧ (demo_env.usb_control_msg () demo_hub (status_request 3)).buf 0 = 0x05
    ∧ (demo_env.usb_control_msg () demo_hub (status_request 3)).buf 1 = 0x03
    ∧ Event.printf (Out.port_line false 3
          [" power", " lowspeed", "", "", "", " connect", "", " suspend", "", ""])
        ∈ (main demo_env demo_argv ()).trace := by
  refine ⟨?_, ?_, by decide, by decide, by decide⟩
  · rw [status_words_eq]
    simp only [if_true, one_ne_zero, if_false]
    decide
  · rw [status_words_eq]
    simp only [if_true, one_ne_zero, if_false]
    decide

end HubCtrl
